import Mathlib

/-!
# Verification of the CrewAI output-management pipeline

A shallow embedding of the `src/core/output_management` package
(`structured_output.py`, `output_processor.py`, `output_validator.py`,
`result_aggregator.py`) of the CrewAI-Implementation repository, together
with theorems settling the frozen claims about its specification.

Modelling conventions:
* Python `float` is modelled as `ℚ` (the claims are about which formulas are
  computed, not about binary rounding).
* Python `None` / optional values are modelled with `Option`.
* Python dictionaries are modelled as insertion-ordered association lists
  (`List (String × v)`) with insert-or-assign update, mirroring CPython's
  insertion-order semantics.
* Python `set`s that are converted back to lists (`list(set(...))`) have
  unspecified iteration order in CPython; the model uses first-occurrence
  order.  No claim depends on these orders.
* `datetime` timestamps and `uuid` identifiers are modelled as `Unit`
  (they are never inspected by the claimed code paths except for Python
  truthiness, and `datetime` objects are always truthy).
* Pydantic's `use_enum_values=True` stores the enums' string values; since
  `str`-enum members hash and compare equal to their values, dictionary
  lookups keyed by enum members succeed on the stored strings, so statuses
  and output types are modelled directly by inductive types.
* External library calls (`yaml.safe_load`) are taken as an explicit
  functional parameter; `json.loads` is modelled by an executable JSON
  parser below (`json_loads`), faithful to RFC-8259 JSON as accepted by
  CPython, including the nonstandard `NaN`/`Infinity`/`-Infinity`
  literals (parsed to `PyVal.nonfinite`).
-/

namespace CrewAI

/-- Python values, as far as the pipeline inspects them: the `content`
field of an output has Python type `Union[str, Dict[str, Any], List[Any]]`
and raw agent outputs are arbitrary objects.  `nonfinite` is a
non-finite float — `float("nan")` when `isNan`, otherwise `±inf` — which
has no rational counterpart; `json.loads` produces such values from its
nonstandard `NaN`/`Infinity`/`-Infinity` literals. -/
inductive PyVal where
  | str (s : String)
  | int (n : Int)
  | float (q : ℚ)
  | bool (b : Bool)
  | none
  | list (xs : List PyVal)
  | dict (xs : List (String × PyVal))
  | nonfinite (neg isNan : Bool)
deriving Repr

/-! ## Python string primitives used by the source -/

/-- Characters counted as whitespace by Python `str.strip`/`str.split`
(space, tab, newline, carriage return, vertical tab, form feed). -/
def pyIsSpace (c : Char) : Bool :=
  c = ' ' || c = '\t' || c = '\n' || c = '\r' ||
  c = Char.ofNat 11 || c = Char.ofNat 12

/-- Splitting on a separator character, keeping empty fields. -/
def splitOnCharAux (sep : Char) : List Char → List Char → List String
  | [], acc => [String.mk acc.reverse]
  | c :: r, acc =>
    if c = sep then String.mk acc.reverse :: splitOnCharAux sep r []
    else splitOnCharAux sep r (c :: acc)

def splitOnChar (sep : Char) (s : String) : List String :=
  splitOnCharAux sep s.data []

/-- Python `str.split('\n')`. -/
def pyLines (s : String) : List String := splitOnChar '\n' s

/-- Python `str.split(',')`. -/
def pySplitComma (s : String) : List String := splitOnChar ',' s

/-- Python `'\n'.join(xs)` (and, with other separators, `sep.join xs`). -/
def pyJoin (sep : String) : List String → String
  | [] => ""
  | [x] => x
  | x :: xs => x ++ sep ++ pyJoin sep xs

/-- Python `str.strip()` (no argument): remove leading and trailing
whitespace. -/
def pyStrip (s : String) : String :=
  let l := (s.data.dropWhile pyIsSpace).reverse.dropWhile pyIsSpace
  String.mk l.reverse

/-- Python `str.strip('#')`: remove leading and trailing `#` characters. -/
def pyStripHash (s : String) : String :=
  let l := (s.data.dropWhile (· = '#')).reverse.dropWhile (· = '#')
  String.mk l.reverse

/-- Python `str.split()` (no argument): split on whitespace runs, dropping
empty fields. -/
def pyWordsAux : List Char → List Char → List String
  | [], acc => if acc.isEmpty then [] else [String.mk acc.reverse]
  | c :: r, acc =>
    if pyIsSpace c then
      if acc.isEmpty then pyWordsAux r []
      else String.mk acc.reverse :: pyWordsAux r []
    else pyWordsAux r (c :: acc)

def pyWords (s : String) : List String := pyWordsAux s.data []

/-- ASCII lower-casing, modelling Python `str.lower()` on the ASCII
fragment actually exercised by the pipeline. -/
def pyLower (s : String) : String := String.mk (s.data.map Char.toLower)

/-- Case-insensitive character comparison (ASCII), for `re.IGNORECASE`. -/
def ciEq (a b : Char) : Bool := a.toLower = b.toLower

/-- Does `l` start with `pre`, case-insensitively? -/
def startsWithCI : List Char → List Char → Bool
  | _, [] => true
  | [], _ :: _ => false
  | c :: l, p :: pre => ciEq c p && startsWithCI l pre

/-- Does `l` start with `pre` (case-sensitive)? -/
def startsWithCS : List Char → List Char → Bool
  | _, [] => true
  | [], _ :: _ => false
  | c :: l, p :: pre => c = p && startsWithCS l pre

/-- Python `str.replace(a, b)` (replaces all non-overlapping occurrences
left to right; the source never calls it with an empty pattern). -/
def replaceListAux (pat rep : List Char) : Nat → List Char → List Char
  | 0, l => l
  | _ + 1, [] => []
  | fuel + 1, c :: r =>
    if !pat.isEmpty && startsWithCS (c :: r) pat then
      rep ++ replaceListAux pat rep fuel ((c :: r).drop pat.length)
    else c :: replaceListAux pat rep fuel r

def pyReplace (s a b : String) : String :=
  String.mk (replaceListAux a.data b.data (s.data.length + 1) s.data)

/-- Python `len(str)` (number of characters). -/
def pyLen (s : String) : Nat := s.length

/-- Python word characters `\w` (ASCII fragment): letters, digits, `_`. -/
def pyIsWord (c : Char) : Bool :=
  ('a' ≤ c && c ≤ 'z') || ('A' ≤ c && c ≤ 'Z') || ('0' ≤ c && c ≤ '9') || c = '_'

def pyIsDigit (c : Char) : Bool := '0' ≤ c && c ≤ '9'

def pyIsLowerAlpha (c : Char) : Bool := 'a' ≤ c && c ≤ 'z'

def pyIsUpperAlpha (c : Char) : Bool := 'A' ≤ c && c ≤ 'Z'

/-- Does `l` contain `sub` as a contiguous substring? -/
def containsSub (l sub : List Char) : Bool :=
  match l with
  | [] => startsWithCS [] sub
  | _ :: rest => startsWithCS l sub || containsSub rest sub

/-- Python `str.count(sub)` for nonempty `sub`: number of non-overlapping
occurrences scanning left to right. -/
def countSubAux (sub : List Char) : Nat → List Char → Nat
  | 0, _ => 0
  | _ + 1, [] => 0
  | fuel + 1, c :: rest =>
    if !sub.isEmpty && startsWithCS (c :: rest) sub then
      countSubAux sub fuel ((c :: rest).drop sub.length) + 1
    else
      countSubAux sub fuel rest

def countSub (l sub : List Char) : Nat :=
  if sub.isEmpty then 0 else countSubAux sub (l.length + 1) l

/-- Single-pass de-duplication keeping first occurrences (model of
`list(set(...))`; CPython's set order is unspecified). -/
def dedupFirstAux (seen : List String) : List String → List String
  | [] => []
  | x :: r =>
    if seen.contains x then dedupFirstAux seen r
    else x :: dedupFirstAux (x :: seen) r

def dedupFirst (l : List String) : List String := dedupFirstAux [] l

/-- Insert-or-assign on an insertion-ordered association list: CPython
`dict[k] = v`. -/
def dictUpdate {v : Type} (d : List (String × v)) (k : String) (x : v) :
    List (String × v) :=
  match d with
  | [] => [(k, x)]
  | (k0, x0) :: rest =>
    if k0 = k then (k0, x) :: rest else (k0, x0) :: dictUpdate rest k x

/-- CPython `dict.get(k, default)` / `k in dict` support. -/
def dictLookup {v : Type} (d : List (String × v)) (k : String) : Option v :=
  match d with
  | [] => Option.none
  | (k0, x0) :: rest => if k0 = k then some x0 else dictLookup rest k

/-- `dict.update(other)`: insert-or-assign every pair of `other` in order. -/
def dictExtend {v : Type} (d : List (String × v)) (other : List (String × v)) :
    List (String × v) :=
  other.foldl (fun acc kv => dictUpdate acc kv.1 kv.2) d

/-! ## Python truthiness -/

/-- Truthiness of an optional string (`None` and `""` are falsy). -/
def truthyOptStr : Option String → Bool
  | Option.none => false
  | some s => s ≠ ""

/-- Truthiness of an optional number (`None` and `0` are falsy). -/
def truthyOptQ : Option ℚ → Bool
  | Option.none => false
  | some q => q ≠ 0

/-- Truthiness of an optional integer (`None` and `0` are falsy). -/
def truthyOptInt : Option Int → Bool
  | Option.none => false
  | some n => n ≠ 0

/-- Truthiness of an optional association list (`None` and `{}` falsy). -/
def truthyOptDict {v : Type} : Option (List (String × v)) → Bool
  | Option.none => false
  | some d => !d.isEmpty

/-- CPython `repr` of a string (single-quoted; escape sequences are not
modelled, no claim renders strings needing them). -/
def strRepr (s : String) : String :=
  String.singleton (Char.ofNat 39) ++ s ++ String.singleton (Char.ofNat 39)

mutual

/-- CPython `repr`, used for elements inside rendered containers. -/
def pyRepr : PyVal → String
  | .str s => strRepr s
  | .int n => toString n
  | .float q => toString q
  | .bool b => if b then "True" else "False"
  | .none => "None"
  | .list xs => "[" ++ pyJoin ", " (pyReprList xs) ++ "]"
  | .dict xs =>
    "\x7b" ++ pyJoin ", " (pyReprDict xs) ++ "\x7d"
  | .nonfinite neg isNan =>
    if isNan then "nan" else if neg then "-inf" else "inf"

def pyReprList : List PyVal → List String
  | [] => []
  | x :: xs => pyRepr x :: pyReprList xs

def pyReprDict : List (String × PyVal) → List String
  | [] => []
  | (k, v) :: xs => (strRepr k ++ ": " ++ pyRepr v) :: pyReprDict xs

end

/-- Python `str()` of a modelled value.  For strings it is the string
itself; the container/scalar cases model CPython's `str` rendering (the
claims only ever evaluate this on strings). -/
def pyStr : PyVal → String
  | .str s => s
  | v => pyRepr v

/-- Python `min(xs, key=f)` on a nonempty list: first element with the
least key (replacement only on strictly smaller keys). -/
def pyMinBy {α : Type} (f : α → Nat) (x : α) (xs : List α) : α :=
  xs.foldl (fun acc y => if f y < f acc then y else acc) x

/-- Python `max(xs, key=f)` on a nonempty list: first element with the
greatest key. -/
def pyMaxBy {α : Type} (f : α → ℚ) (x : α) (xs : List α) : α :=
  xs.foldl (fun acc y => if f acc < f y then y else acc) x

/-! ## Model of `json.loads`

An executable recursive-descent parser for RFC-8259 JSON, as accepted by
CPython's `json.loads`: optional surrounding whitespace, `null`, `true`,
`false`, the nonstandard `NaN`/`Infinity`/`-Infinity` constants,
double-quoted strings with the standard escapes, numbers (integer part,
optional fraction, optional exponent), arrays and objects.  Duplicate
object keys keep the last value, as in CPython.  Finite numbers are
parsed exactly into `ℚ`. -/

/-- JSON insignificant whitespace. -/
def jsonWs (c : Char) : Bool := c = ' ' || c = '\t' || c = '\n' || c = '\r'

def skipJsonWs (l : List Char) : List Char := l.dropWhile jsonWs

/-- Value of one hex digit of a `\uXXXX` escape. -/
def hexVal (x : Char) : Option Nat :=
  if pyIsDigit x then some (x.toNat - 48)
  else if 'a' ≤ x && x ≤ 'f' then some (x.toNat - 87)
  else if 'A' ≤ x && x ≤ 'F' then some (x.toNat - 55)
  else Option.none

/-- Combine four hex digits of a `\uXXXX` escape. -/
def hexVal4 (a b c d : Char) : Option Nat := do
  let va ← hexVal a; let vb ← hexVal b; let vc ← hexVal c; let vd ← hexVal d
  some (((va * 16 + vb) * 16 + vc) * 16 + vd)

/-- Parse the body of a JSON string (after the opening quote), returning
the decoded characters and the input after the closing quote. -/
def parseJsonStringAux : Nat → List Char → Option (List Char × List Char)
  | 0, _ => Option.none
  | _ + 1, [] => Option.none
  | fuel + 1, c :: rest =>
    if c = Char.ofNat 34 then some ([], rest)
    else if c = '\\' then
      match rest with
      | [] => Option.none
      | e :: rest2 =>
        let esc : Option Char :=
          if e = Char.ofNat 34 then some (Char.ofNat 34)
          else if e = '\\' then some '\\'
          else if e = '/' then some '/'
          else if e = 'b' then some (Char.ofNat 8)
          else if e = 'f' then some (Char.ofNat 12)
          else if e = 'n' then some '\n'
          else if e = 'r' then some '\r'
          else if e = 't' then some '\t'
          else Option.none
        match esc with
        | some ch => do
          let (tail, rem) ← parseJsonStringAux fuel rest2
          some (ch :: tail, rem)
        | Option.none =>
          if e = 'u' then
            match rest2 with
            | a :: b :: c2 :: d :: rest3 => do
              let n ← hexVal4 a b c2 d
              let (tail, rem) ← parseJsonStringAux fuel rest3
              some (Char.ofNat n :: tail, rem)
            | _ => Option.none
          else Option.none
    else if c.toNat < 32 then Option.none
    else do
      let (tail, rem) ← parseJsonStringAux fuel rest
      some (c :: tail, rem)

def parseJsonString (l : List Char) : Option (List Char × List Char) :=
  parseJsonStringAux (l.length + 1) l

/-- Parse a JSON number starting at the head of `l` (the head is known to
be a digit or `-`). -/
def parseJsonNumber (l : List Char) : Option (ℚ × List Char) :=
  let (neg, l1) :=
    match l with
    | '-' :: r => (true, r)
    | _ => (false, l)
  let intDigits := l1.takeWhile pyIsDigit
  let afterInt := l1.drop intDigits.length
  if intDigits = [] then Option.none
  else if intDigits.length > 1 && intDigits.headD '0' = '0' then Option.none
  else
    let intVal : Nat := intDigits.foldl (fun (a : Nat) (c : Char) => a * 10 + (c.toNat - 48)) 0
    let (fracVal, fracOk, afterFrac) :=
      match afterInt with
      | '.' :: r =>
        let fd := r.takeWhile pyIsDigit
        if fd = [] then ((0 : ℚ), false, afterInt)
        else
          (((fd.foldl (fun (a : Nat) (c : Char) => a * 10 + (c.toNat - 48)) 0 : Nat) : ℚ) /
              ((10 : ℚ) ^ fd.length),
            true, r.drop fd.length)
      | _ => ((0 : ℚ), true, afterInt)
    if !fracOk then Option.none
    else
      match afterFrac with
      | e :: r =>
        if e = 'e' || e = 'E' then
          let (eneg, r1) :=
            match r with
            | '-' :: r2 => (true, r2)
            | '+' :: r2 => (false, r2)
            | _ => (false, r)
          let ed := r1.takeWhile pyIsDigit
          if ed = [] then Option.none
          else
            let ev : Nat := ed.foldl (fun (a : Nat) (c : Char) => a * 10 + (c.toNat - 48)) 0
            let base : ℚ := (intVal : ℚ) + fracVal
            let scaled : ℚ := if eneg then base / (10 : ℚ) ^ ev else base * (10 : ℚ) ^ ev
            some (if neg then -scaled else scaled, r1.drop ed.length)
        else
          let v : ℚ := (intVal : ℚ) + fracVal
          some (if neg then -v else v, afterFrac)
      | [] =>
        let v : ℚ := (intVal : ℚ) + fracVal
        some (if neg then -v else v, afterFrac)

/-- Whether a parsed JSON number is integral (CPython yields `int` for
numbers without fraction or exponent; the distinction is irrelevant to
every claim, so integral rationals are stored as `PyVal.int`). -/
def ratToPyNum (q : ℚ) : PyVal :=
  if q.den = 1 then PyVal.int q.num else PyVal.float q

/-- Parse `, value`* `]` continuations of an array; `pv` parses one
element. -/
def jsonArrayLoop (pv : List Char → Option (PyVal × List Char)) :
    Nat → List PyVal → List Char → Option (PyVal × List Char)
  | 0, _, _ => Option.none
  | fuel + 1, acc, l =>
    match skipJsonWs l with
    | ']' :: rest => some (PyVal.list acc.reverse, rest)
    | ',' :: rest => do
      let (v, rem) ← pv rest
      jsonArrayLoop pv fuel (v :: acc) rem
    | _ => Option.none

/-- Parse `"key": value` pairs of an object; `pv` parses one value. -/
def jsonObjectLoop (pv : List Char → Option (PyVal × List Char)) :
    Nat → List (String × PyVal) → List Char → Option (PyVal × List Char)
  | 0, _, _ => Option.none
  | fuel + 1, acc, l =>
    match skipJsonWs l with
    | c :: rest =>
      if c = Char.ofNat 34 then
        match parseJsonString rest with
        | some (kcs, rem1) =>
          match skipJsonWs rem1 with
          | ':' :: rem2 => do
            let (v, rem3) ← pv rem2
            let acc2 := dictUpdate acc (String.mk kcs) v
            match skipJsonWs rem3 with
            | '\x7d' :: rem4 => some (PyVal.dict acc2, rem4)
            | ',' :: rem4 => jsonObjectLoop pv fuel acc2 rem4
            | _ => Option.none
          | _ => Option.none
        | Option.none => Option.none
      else Option.none
    | [] => Option.none

/-- Parse one JSON value after skipping leading whitespace (`fuel` bounds
the nesting and element count; `json_loads` supplies enough of it). -/
def parseJsonVal : Nat → List Char → Option (PyVal × List Char)
  | 0, _ => Option.none
  | fuel + 1, l0 =>
    let l := skipJsonWs l0
    match l with
    | [] => Option.none
    | c :: rest =>
      if c = Char.ofNat 34 then
        match parseJsonString rest with
        | some (cs, rem) => some (PyVal.str (String.mk cs), rem)
        | Option.none => Option.none
      else if c = '[' then
        match skipJsonWs rest with
        | ']' :: rem => some (PyVal.list [], rem)
        | l2 => do
          let (v, rem) ← parseJsonVal fuel l2
          jsonArrayLoop (parseJsonVal fuel) (fuel + 1) [v] rem
      else if c = '\x7b' then
        match skipJsonWs rest with
        | '\x7d' :: rem => some (PyVal.dict [], rem)
        | l2 => jsonObjectLoop (parseJsonVal fuel) (fuel + 1) [] l2
      else if startsWithCS l "null".data then some (PyVal.none, l.drop 4)
      else if startsWithCS l "true".data then some (PyVal.bool true, l.drop 4)
      else if startsWithCS l "false".data then some (PyVal.bool false, l.drop 5)
      else if startsWithCS l "NaN".data then
        some (PyVal.nonfinite false true, l.drop 3)
      else if startsWithCS l "Infinity".data then
        some (PyVal.nonfinite false false, l.drop 8)
      else if startsWithCS l "-Infinity".data then
        some (PyVal.nonfinite true false, l.drop 9)
      else if c = '-' || pyIsDigit c then
        match parseJsonNumber l with
        | some (q, rem) => some (ratToPyNum q, rem)
        | Option.none => Option.none
      else Option.none

/-- Model of CPython `json.loads`: `some v` on success, `none` when the
call raises `json.JSONDecodeError`. -/
def json_loads (s : String) : Option PyVal :=
  match parseJsonVal (s.length + 1) s.data with
  | some (v, rem) => if skipJsonWs rem = [] then some v else Option.none
  | Option.none => Option.none

/-- `statistics.mean` of a nonempty list (the source always guards for
nonemptiness before calling it). -/
def pyMean (l : List ℚ) : ℚ := l.sum / l.length

/-- `statistics.median`: middle element of the sorted list, or the mean of
the two middle elements for even length. -/
def pyMedian (l : List ℚ) : ℚ :=
  let s := l.mergeSort (· ≤ ·)
  let n := l.length
  if n % 2 = 1 then s.getD (n / 2) 0
  else (s.getD (n / 2 - 1) 0 + s.getD (n / 2) 0) / 2

/-! ## Scanners modelling the `re` patterns used by the source

Each Python regular expression used by `output_processor.py` and
`output_validator.py` is modelled by a dedicated executable scanner with
the same matching semantics (leftmost match, lazy/greedy quantifiers as
written, `re.MULTILINE` via per-line checks, `re.IGNORECASE` via
case-insensitive comparison, `.` not matching newline, non-overlapping
`findall`). -/

/-- `^`-anchored searching under `re.MULTILINE`: `p` holds at some
anchor, i.e. at the start of the input or right after some newline.
`anchorTail` enumerates the after-a-newline anchors. -/
def anchorTail (p : List Char → Bool) : List Char → Bool
  | [] => false
  | c :: r => (c = '\n' && p r) || anchorTail p r

def anchorAny (p : List Char → Bool) (l : List Char) : Bool :=
  p l || anchorTail p l

/-- The input matches `#{1,6}\s+` at its start: 1–6 leading `#` followed
by a whitespace character.  Applied to `^`-anchor suffixes of the raw
string (where the terminating newline of a line is present and counts as
the `\s`), and to Python-split lines where the source itself splits
(`_validate_markdown_structure`, `_parse_markdown_sections`). -/
def leadingHashes : List Char → Nat
  | [] => 0
  | c :: r => if c = '#' then leadingHashes r + 1 else 0

def isHeaderLine (l : List Char) : Bool :=
  let n := leadingHashes l
  1 ≤ n && n ≤ 6 &&
    (match l.drop n with
     | c :: _ => pyIsSpace c
     | [] => false)

/-- `re.match(r'^(#{1,6})\s+(.+)', line)`: the full header match including
the title capture `(.+)`; returns the title.  When the line ends in the
whitespace run, the greedy `\s+` backs off one character so that `(.+)`
can still capture it (provided at least two whitespace characters are
available). -/
def headerTitle (l : List Char) : Option String :=
  let n := leadingHashes l
  if 1 ≤ n && n ≤ 6 then
    let rest := l.drop n
    let ws := rest.takeWhile pyIsSpace
    let after := rest.drop ws.length
    if ws.length = 0 then Option.none
    else if !after.isEmpty then some (String.mk after)
    else if ws.length ≥ 2 then some (String.mk [ws.getLastD ' '])
    else Option.none
  else Option.none

/-- After a first `**`, is there a closing `**` with no newline before it
(the lazy `.*?` of `\*\*.*?\*\*` cannot cross a newline)? -/
def findCloseBold : List Char → Bool
  | '*' :: '*' :: _ => true
  | '\n' :: _ => false
  | _ :: r => findCloseBold r
  | [] => false

/-- A `**` opener at the head of the input whose closer exists. -/
def boldAt : List Char → Bool
  | '*' :: '*' :: r => findCloseBold r
  | _ => false

/-- `re.search(r'\*\*.*?\*\*', s)`. -/
def hasBold : List Char → Bool
  | [] => false
  | c :: rest => boldAt (c :: rest) || hasBold rest

/-- After a first `*`, is there a closing `*` before a newline? -/
def findCloseStar : List Char → Bool
  | '*' :: _ => true
  | '\n' :: _ => false
  | _ :: r => findCloseStar r
  | [] => false

/-- `re.search(r'\*.*?\*', s)`. -/
def hasItalic : List Char → Bool
  | [] => false
  | c :: rest => (decide (c = '*') && findCloseStar rest) || hasItalic rest

/-- The input matches `\s*[\-\*\+]\s+` at its start (the per-anchor
check of `^\s*[\-\*\+]\s+` under `re.MULTILINE`; existence of `\s+`
equals existence of `\s`, and on a raw-string anchor suffix the leading
`\s*` may cross newlines and the trailing `\s` may be the
line-terminating newline, exactly as in Python). -/
def isListLine (l : List Char) : Bool :=
  match l.dropWhile pyIsSpace with
  | c :: d :: _ => (c = '-' || c = '*' || c = '+') && pyIsSpace d
  | _ => false

/-- The input matches `\s*\d+\.\s+` at its start (per-anchor check of
`^\s*\d+\.\s+`). -/
def isNumberedLine (l : List Char) : Bool :=
  let rest := l.dropWhile pyIsSpace
  let digits := rest.takeWhile pyIsDigit
  digits.length ≥ 1 &&
    (match rest.drop digits.length with
     | '.' :: d :: _ => pyIsSpace d
     | _ => false)

/-- Lazy `.*?\)`: segment up to and including the first `)`, failing at a
newline (for the `\(...\)` tails of the link/citation patterns). -/
def takeToParen : List Char → Option (List Char × List Char)
  | [] => Option.none
  | ')' :: r => some ([')'], r)
  | '\n' :: _ => Option.none
  | c :: r =>
    match takeToParen r with
    | some (seg, rem) => some (c :: seg, rem)
    | Option.none => Option.none

/-- Lazy `.*?\]`: segment up to and including the first `]`, failing at a
newline. -/
def takeToBracket : List Char → Option (List Char × List Char)
  | [] => Option.none
  | ']' :: r => some ([']'], r)
  | '\n' :: _ => Option.none
  | c :: r =>
    match takeToBracket r with
    | some (seg, rem) => some (c :: seg, rem)
    | Option.none => Option.none

/-- Body of `\[.*?\]\(.*?\)` after the opening `[`: scan for a `]`
immediately followed by `(` whose paren closes before a newline; on
failure the lazy `.*?` absorbs the `]` and scanning continues.  Returns
the matched tail (everything after `[` up to the closing paren) and the
remaining input. -/
def mdLinkBody : List Char → Option (List Char × List Char)
  | [] => Option.none
  | '\n' :: _ => Option.none
  | ']' :: '(' :: r =>
    (match takeToParen r with
     | some (seg, rem) => some (']' :: '(' :: seg, rem)
     | Option.none =>
       match mdLinkBody r with
       | some (t, rem) => some (']' :: '(' :: t, rem)
       | Option.none => Option.none)
  | c :: r =>
    match mdLinkBody r with
    | some (t, rem) => some (c :: t, rem)
    | Option.none => Option.none

/-- `re.search(r'\[.*?\]\(.*?\)', s)`. -/
def hasMdLink : List Char → Bool
  | '[' :: r => (mdLinkBody r).isSome || hasMdLink r
  | _ :: r => hasMdLink r
  | [] => false

/-- `re.sub(r'\[.*?\]\(.*?\)', '', s)`: delete each leftmost
non-overlapping markdown link. -/
def removeMdLinks (fuel : Nat) (l : List Char) : List Char :=
  match fuel, l with
  | 0, l => l
  | _ + 1, [] => []
  | fuel + 1, '[' :: r =>
    (match mdLinkBody r with
     | some (_, rem) => removeMdLinks fuel rem
     | Option.none => '[' :: removeMdLinks fuel r)
  | fuel + 1, c :: r => c :: removeMdLinks fuel r

/-- `re.sub(r'<[^>]+>', '', s)`: delete each `<`…`>` group with a
nonempty gap free of `>` (the greedy `[^>]+` then `>`). -/
def removeHtmlTags (fuel : Nat) (l : List Char) : List Char :=
  match fuel, l with
  | 0, l => l
  | _ + 1, [] => []
  | fuel + 1, '<' :: r =>
    let run := r.takeWhile (· ≠ '>')
    (match r.drop run.length with
     | '>' :: rem =>
       if run.isEmpty then '<' :: removeHtmlTags fuel r
       else removeHtmlTags fuel rem
     | _ => '<' :: removeHtmlTags fuel r)
  | fuel + 1, c :: r => c :: removeHtmlTags fuel r

/-- `re.search(r'<[^>]+>', s)` (`[^>]` also matches newlines). -/
def hasHtmlTag : List Char → Bool
  | [] => false
  | '<' :: r =>
    (match r.takeWhile (· ≠ '>'), r.drop (r.takeWhile (· ≠ '>')).length with
     | run, '>' :: _ => !run.isEmpty
     | _, _ => false) ||
    hasHtmlTag r
  | _ :: r => hasHtmlTag r

/-- `re.sub(r'[#*_\x60]', '', s)`: drop markdown formatting characters
(`#`, `*`, `_` and backtick). -/
def removeMdFormatChars (l : List Char) : List Char :=
  l.filter fun c => !(c = '#' || c = '*' || c = '_' || c = Char.ofNat 96)

/-- Scheme prefix of `https?://` under `re.IGNORECASE`: number of matched
characters (the greedy `s?` tries `https://` first). -/
def httpPrefixLen (l : List Char) : Option Nat :=
  if startsWithCI l "https://".data then some 8
  else if startsWithCI l "http://".data then some 7
  else Option.none

/-- Body of `\[.*?\]\(https?://.*?\)` (IGNORECASE) after the opening `[`:
like `mdLinkBody` but the paren group must begin with an `http(s)://`
scheme. -/
def httpLinkBody : List Char → Option (List Char × List Char)
  | [] => Option.none
  | '\n' :: _ => Option.none
  | ']' :: '(' :: r =>
    (match httpPrefixLen r with
     | some n =>
       (match takeToParen (r.drop n) with
        | some (seg, rem) => some (']' :: '(' :: (r.take n ++ seg), rem)
        | Option.none =>
          match httpLinkBody r with
          | some (t, rem) => some (']' :: '(' :: t, rem)
          | Option.none => Option.none)
     | Option.none =>
       match httpLinkBody r with
       | some (t, rem) => some (']' :: '(' :: t, rem)
       | Option.none => Option.none)
  | c :: r =>
    match httpLinkBody r with
    | some (t, rem) => some (c :: t, rem)
    | Option.none => Option.none

/-- `re.findall(r'\[.*?\]\(https?://.*?\)', s, re.IGNORECASE)`. -/
def findHttpLinks (fuel : Nat) (l : List Char) : List String :=
  match fuel, l with
  | 0, _ => []
  | _ + 1, [] => []
  | fuel + 1, '[' :: r =>
    (match httpLinkBody r with
     | some (t, rem) => String.mk ('[' :: t) :: findHttpLinks fuel rem
     | Option.none => findHttpLinks fuel r)
  | fuel + 1, _ :: r => findHttpLinks fuel r

/-- `re.findall(r'https?://[^\s]+', s, re.IGNORECASE)`. -/
def findUrls (fuel : Nat) (l : List Char) : List String :=
  match fuel, l with
  | 0, _ => []
  | _ + 1, [] => []
  | fuel + 1, c :: r =>
    (match httpPrefixLen (c :: r) with
     | some n =>
       let rest := (c :: r).drop n
       let run := rest.takeWhile fun d => !pyIsSpace d
       if run.isEmpty then findUrls fuel r
       else
         String.mk ((c :: r).take n ++ run) ::
           findUrls fuel (rest.drop run.length)
     | Option.none => findUrls fuel r)

/-- `re.findall(r'\(Source:.*?\)', s, re.IGNORECASE)`. -/
def findParenSources (fuel : Nat) (l : List Char) : List String :=
  match fuel, l with
  | 0, _ => []
  | _ + 1, [] => []
  | fuel + 1, c :: r =>
    if c = '(' && startsWithCI r "Source:".data then
      match takeToParen (r.drop 7) with
      | some (seg, rem) =>
        String.mk ((c :: r).take 8 ++ seg) :: findParenSources fuel rem
      | Option.none => findParenSources fuel r
    else findParenSources fuel r

/-- `re.findall(r'\[Source:.*?\]', s, re.IGNORECASE)`. -/
def findBracketSources (fuel : Nat) (l : List Char) : List String :=
  match fuel, l with
  | 0, _ => []
  | _ + 1, [] => []
  | fuel + 1, c :: r =>
    if c = '[' && startsWithCI r "Source:".data then
      match takeToBracket (r.drop 7) with
      | some (seg, rem) =>
        String.mk ((c :: r).take 8 ++ seg) :: findBracketSources fuel rem
      | Option.none => findBracketSources fuel r
    else findBracketSources fuel r

/-- `re.findall(r'Source:|\*Source\*', s, re.IGNORECASE)` (the first
alternative is tried first at every position). -/
def findSourceLabels (fuel : Nat) (l : List Char) : List String :=
  match fuel, l with
  | 0, _ => []
  | _ + 1, [] => []
  | fuel + 1, c :: r =>
    if startsWithCI (c :: r) "Source:".data then
      String.mk ((c :: r).take 7) :: findSourceLabels fuel ((c :: r).drop 7)
    else if c = '*' && startsWithCI r "Source*".data then
      String.mk ((c :: r).take 8) :: findSourceLabels fuel (r.drop 7)
    else findSourceLabels fuel r

/-- `re.findall(r'#(\w+)', s)`: hashtag captures. -/
def findHashtags (fuel : Nat) (l : List Char) : List String :=
  match fuel, l with
  | 0, _ => []
  | _ + 1, [] => []
  | fuel + 1, '#' :: r =>
    let run := r.takeWhile pyIsWord
    if run.isEmpty then findHashtags fuel r
    else String.mk run :: findHashtags fuel (r.drop run.length)
  | fuel + 1, _ :: r => findHashtags fuel r

/-- Largest cut `k` with `1 ≤ k ≤ sep.length` such that the character at
position `k` (inside `sep`, or `next` when `k = sep.length`) exists and
is not a newline: the greedy `[:\s]+` keeps `k` characters and the
capture `([^\n]+)` starts at position `k`. -/
def lastGoodCut (sep : List Char) (next : Option Char) : Option Nat :=
  match sep with
  | [] => Option.none
  | _ :: r =>
    match lastGoodCut r next with
    | some k => some (k + 1)
    | Option.none =>
      let d : Option Char :=
        match r with
        | d0 :: _ => some d0
        | [] => next
      match d with
      | some d0 => if d0 ≠ '\n' then some 1 else Option.none
      | Option.none => Option.none

/-- Match of `kw` + `s?` + `[:\s]+` + capture `([^\n]+)` at the head of
`l` (IGNORECASE): used by the `tags?`/`keywords?` list patterns.
Returns the capture and the input after the whole match. -/
def keyListAt (kw : List Char) (l : List Char) : Option (String × List Char) :=
  if startsWithCI l kw then
    let after1 := l.drop kw.length
    -- the greedy `s?` takes an `s` when present; if the separator then
    -- fails, backing the `s` off cannot help (an `s` is not in `[:\s]`),
    -- so the overall match fails either way
    let afterS :=
      match after1 with
      | c :: r2 => if ciEq c 's' then r2 else after1
      | [] => after1
    let sep := afterS.takeWhile fun c => c = ':' || pyIsSpace c
    if sep.isEmpty then Option.none
    else
      match lastGoodCut sep (afterS.drop sep.length).head? with
      | some k =>
        let tail := afterS.drop k
        let cap := tail.takeWhile (· ≠ '\n')
        if cap.isEmpty then Option.none
        else some (String.mk cap, tail.drop cap.length)
      | Option.none => Option.none
  else Option.none

/-- `re.findall(r'tags?[:\s]+([^\n]+)', s, re.IGNORECASE)` and its
`keywords?` analogue: all captures, scanning non-overlapping. -/
def findKeyLists (kw : List Char) (fuel : Nat) (l : List Char) : List String :=
  match fuel, l with
  | 0, _ => []
  | _ + 1, [] => []
  | fuel + 1, _ :: r =>
    match keyListAt kw l with
    | some (cap, rem) => cap :: findKeyLists kw fuel rem
    | Option.none => findKeyLists kw fuel r

/-- `re.findall(r'\b[A-Z][a-z]+\b', s)`: capitalized words.  `prevIsWord`
records whether the previous character was a word character (for the
leading `\b`). -/
def findCapWords (fuel : Nat) (l : List Char) (prevIsWord : Bool) :
    List String :=
  match fuel, l with
  | 0, _ => []
  | _ + 1, [] => []
  | fuel + 1, c :: r =>
    if !prevIsWord && pyIsUpperAlpha c then
      let run := r.takeWhile pyIsLowerAlpha
      let boundary :=
        match r.drop run.length with
        | [] => true
        | d :: _ => !pyIsWord d
      if !run.isEmpty && boundary then
        String.mk (c :: run) :: findCapWords fuel (r.drop run.length) true
      else findCapWords fuel r (pyIsWord c)
    else findCapWords fuel r (pyIsWord c)

/-- First match of `kw` + `[:\s]+` + `([0-9.]+)` (IGNORECASE), the
confidence-extraction pattern: the separator cannot usefully back off
(its characters are not digits or dots), so the capture must start right
after the full separator run. -/
def findKeyNum (kw : List Char) : List Char → Option String
  | [] => Option.none
  | c :: r =>
    if startsWithCI (c :: r) kw then
      let afterKw := (c :: r).drop kw.length
      let sep := afterKw.takeWhile fun d => d = ':' || pyIsSpace d
      let cap := (afterKw.drop sep.length).takeWhile fun d => pyIsDigit d || d = '.'
      if !sep.isEmpty && !cap.isEmpty then some (String.mk cap)
      else findKeyNum kw r
    else findKeyNum kw r

/-- CPython `float(s)` for a string of digits and dots: succeeds exactly
when there is at most one dot and at least one digit. -/
def pyFloatOfDigitsDots (s : String) : Option ℚ :=
  let l := s.data
  if l.countP (· = '.') ≤ 1 && l.any pyIsDigit then
    let intPart := l.takeWhile pyIsDigit
    let fracPart := (l.drop intPart.length).drop 1
    let iv : Nat := intPart.foldl (fun (a : Nat) (c : Char) => a * 10 + (c.toNat - 48)) 0
    let fv : Nat := fracPart.foldl (fun (a : Nat) (c : Char) => a * 10 + (c.toNat - 48)) 0
    some ((iv : ℚ) + (fv : ℚ) / (10 : ℚ) ^ fracPart.length)
  else Option.none

/-- `re.search(r'<script[^>]*>', s, re.IGNORECASE)` (the content has
already been lower-cased by the caller). -/
def hasScriptTag : List Char → Bool
  | [] => false
  | c :: r =>
    (decide (c = '<') && startsWithCS r "script".data &&
      (match (r.drop 6).takeWhile (· ≠ '>'), (r.drop 6).drop ((r.drop 6).takeWhile (· ≠ '>')).length with
       | _, '>' :: _ => true
       | _, _ => false)) ||
    hasScriptTag r

/-- `re.search(kw + r'\s*\(', s)` for the `eval(`/`exec(`/`system(`
patterns. -/
def hasCallPattern (kw : List Char) : List Char → Bool
  | [] => false
  | c :: r =>
    (startsWithCS (c :: r) kw &&
      (match ((c :: r).drop kw.length).dropWhile pyIsSpace with
       | '(' :: _ => true
       | _ => false)) ||
    hasCallPattern kw r

/-- `re.search(r'rm\s+-rf', s)`. -/
def hasRmRf : List Char → Bool
  | [] => false
  | c :: r =>
    (startsWithCS (c :: r) "rm".data &&
      (let ws := ((c :: r).drop 2).takeWhile pyIsSpace
       !ws.isEmpty && startsWithCS (((c :: r).drop 2).drop ws.length) "-rf".data)) ||
    hasRmRf r

/-- `re.search(r'format\s+c:', s)`. -/
def hasFormatC : List Char → Bool
  | [] => false
  | c :: r =>
    (startsWithCS (c :: r) "format".data &&
      (let ws := ((c :: r).drop 6).takeWhile pyIsSpace
       !ws.isEmpty && startsWithCS (((c :: r).drop 6).drop ws.length) "c:".data)) ||
    hasFormatC r

/-! ## Data model (`structured_output.py`)

Pydantic stores enum fields as their string values
(`use_enum_values=True`); the strings are in bijection with the members,
so the model uses the inductive types directly.  `Partial` is the member
whose Python value is the string `"partial"`. -/

inductive OutputType where
  | text
  | json
  | markdown
  | html
  | csv
  | xml
  | yaml
deriving Repr, DecidableEq

inductive OutputStatus where
  | success
  | Partial
  | failed
  | pending
deriving Repr, DecidableEq

/-- `OutputMetadata`: timestamps are `Unit` (only their always-true Python
truthiness is ever used by the claimed code paths). -/
structure OutputMetadata where
  agent_id : String
  agent_role : String
  task_id : Option String := Option.none
  task_name : Option String := Option.none
  workflow_id : Option String := Option.none
  timestamp : Unit := ()
  execution_time : Option ℚ := Option.none
  tokens_used : Option Int := Option.none
  model_used : Option String := Option.none
  confidence_score : Option ℚ := Option.none
  source_count : Option Int := Option.none
  word_count : Option Int := Option.none
deriving Repr

structure OutputValidation where
  is_valid : Bool
  validation_score : ℚ
  errors : List String := []
  warnings : List String := []
  requirements_met : List (String × Bool) := []
deriving Repr

/-- Pydantic's field constraint `ge=0.0, le=1.0` on
`OutputValidation.validation_score`: construction raises
`ValidationError` (modelled by `none`) when the score is out of bounds. -/
def mkOutputValidation (is_valid : Bool) (validation_score : ℚ)
    (errors warnings : List String) (requirements_met : List (String × Bool)) :
    Option OutputValidation :=
  if 0 ≤ validation_score ∧ validation_score ≤ 1 then
    some ⟨is_valid, validation_score, errors, warnings, requirements_met⟩
  else Option.none

/-- `StructuredOutput`: `id` is a fresh `uuid4` modelled as `Unit`. -/
structure StructuredOutput where
  id : Unit := ()
  content : PyVal
  output_type : OutputType := OutputType.text
  status : OutputStatus := OutputStatus.success
  metadata : OutputMetadata
  validation : Option OutputValidation := Option.none
  sections : Option (List (String × PyVal)) := Option.none
  tags : List String := []
  keywords : List String := []
  processing_notes : List String := []
  error_details : Option String := Option.none
  output_file : Option String := Option.none
  backup_files : List String := []
deriving Repr

structure OutputSchema where
  name : String
  description : String
  version : String := "1.0"
  required_fields : List String := []
  optional_fields : List String := []
  field_types : List (String × String) := []
  min_word_count : Option Int := Option.none
  max_word_count : Option Int := Option.none
  required_sections : List String := []
  format_requirements : List (String × PyVal) := []
  min_confidence : ℚ := 7 / 10
  required_sources : Option Int := Option.none
deriving Repr

/-- CPython `str()` of a float, as interpolated into validation messages.
Modelled by the rational rendering; no claim inspects these strings. -/
def floatStr (q : ℚ) : String := toString q

/-- The `required_sections` loop of `OutputSchema.validate_output`:
accumulates one error per missing required section and one
`section_<name>` entry per required section (duplicate names update the
same dictionary entry, as in CPython). -/
def sectionLoop (sections : List (String × PyVal)) :
    List String → List String × List (String × Bool) →
      List String × List (String × Bool)
  | [], acc => acc
  | s :: rest, (errs, reqs) =>
    if (dictLookup sections s).isSome then
      sectionLoop sections rest (errs, dictUpdate reqs ("section_" ++ s) true)
    else
      sectionLoop sections rest
        (errs ++ ["Required section " ++ strRepr s ++ " missing"],
          dictUpdate reqs ("section_" ++ s) false)

/-- The `min_word_count` check of `OutputSchema.validate_output`:
`(errors, requirements)` contributed. -/
def schemaMinWcCheck (schema : OutputSchema) (output : StructuredOutput) :
    List String × List (String × Bool) :=
  let wc := output.metadata.word_count
  if truthyOptInt schema.min_word_count && truthyOptInt wc then
    if wc.getD 0 < schema.min_word_count.getD 0 then
      (["Word count " ++ toString (wc.getD 0) ++ " below minimum " ++
          toString (schema.min_word_count.getD 0)],
        [("min_word_count", false)])
    else ([], [("min_word_count", true)])
  else ([], [])

/-- The `max_word_count` check: `(warnings, requirements)`. -/
def schemaMaxWcCheck (schema : OutputSchema) (output : StructuredOutput) :
    List String × List (String × Bool) :=
  let wc := output.metadata.word_count
  if truthyOptInt schema.max_word_count && truthyOptInt wc then
    if wc.getD 0 > schema.max_word_count.getD 0 then
      (["Word count " ++ toString (wc.getD 0) ++ " exceeds maximum " ++
          toString (schema.max_word_count.getD 0)],
        [("max_word_count", false)])
    else ([], [("max_word_count", true)])
  else ([], [])

/-- The confidence check: `(warnings, requirements)`. -/
def schemaConfCheck (schema : OutputSchema) (output : StructuredOutput) :
    List String × List (String × Bool) :=
  let cs := output.metadata.confidence_score
  if truthyOptQ cs then
    if cs.getD 0 < schema.min_confidence then
      (["Confidence score " ++ floatStr (cs.getD 0) ++ " below minimum " ++
          floatStr schema.min_confidence],
        [("min_confidence", false)])
    else ([], [("min_confidence", true)])
  else ([], [])

/-- The `required_sources` check: `(errors, requirements)`. -/
def schemaSourcesCheck (schema : OutputSchema) (output : StructuredOutput) :
    List String × List (String × Bool) :=
  let sc := output.metadata.source_count
  if truthyOptInt schema.required_sources && truthyOptInt sc then
    if sc.getD 0 < schema.required_sources.getD 0 then
      (["Source count " ++ toString (sc.getD 0) ++ " below required " ++
          toString (schema.required_sources.getD 0)],
        [("required_sources", false)])
    else ([], [("required_sources", true)])
  else ([], [])

/-- The `required_sections` check: `(errors, requirements)`.  The
`section_<name>` keys are disjoint from the four scalar check keys, so
accumulating them in a fresh dictionary and appending reproduces the
insertion order of the single Python dictionary. -/
def schemaSectionsCheck (schema : OutputSchema) (output : StructuredOutput) :
    List String × List (String × Bool) :=
  if !schema.required_sections.isEmpty && truthyOptDict output.sections then
    sectionLoop (output.sections.getD []) schema.required_sections ([], [])
  else ([], [])

/-- `OutputSchema.validate_output(output)` (`structured_output.py`,
lines 156–216).  Every guard uses Python truthiness (`if self.x and
output.metadata.y`).  The validation score provably lies in `[0,1]`
(`schema_score_bounds` below), so the pydantic constraint on
`OutputValidation` never fires on this path and the result is returned
directly. -/
def OutputSchema.validate_output (schema : OutputSchema)
    (output : StructuredOutput) : OutputValidation :=
  let c1 := schemaMinWcCheck schema output
  let c2 := schemaMaxWcCheck schema output
  let c3 := schemaConfCheck schema output
  let c4 := schemaSourcesCheck schema output
  let c5 := schemaSectionsCheck schema output
  let requirements_met := c1.2 ++ c2.2 ++ c3.2 ++ c4.2 ++ c5.2
  let errors := c1.1 ++ c4.1 ++ c5.1
  let warnings := c2.1 ++ c3.1
  let total := requirements_met.length
  let met := (requirements_met.filter (·.2)).length
  let validation_score : ℚ := if total > 0 then (met : ℚ) / (total : ℚ) else 1
  { is_valid := errors.isEmpty
    validation_score := validation_score
    errors := errors
    warnings := warnings
    requirements_met := requirements_met }

/-! ## Validator (`output_validator.py`) -/

/-- `ValidationRule`: `validator_func` may raise (modelled by
`Except String`); `ValidationRule.validate` catches the exception. -/
structure ValidationRule where
  name : String
  description : String
  validator_func : StructuredOutput → Except String Bool
  error_message : String
  warning_only : Bool := false
  weight : ℚ := 1

/-- `ValidationRule.validate(output)`: `(is_valid, message)`. -/
def ValidationRule.validate (rule : ValidationRule)
    (output : StructuredOutput) : Bool × String :=
  match rule.validator_func output with
  | .ok b => (b, if b then "" else rule.error_message)
  | .error e => (false, "Validation error in " ++ rule.name ++ ": " ++ e)

/-- `_validate_content_type_consistency`. -/
def validateContentTypeConsistency (output : StructuredOutput) : Bool :=
  let content_str := pyStr output.content
  match output.output_type with
  | OutputType.json =>
    (match output.content with
     | PyVal.dict _ => true
     | PyVal.list _ => true
     | _ => (json_loads content_str).isSome)
  | OutputType.markdown =>
    -- patterns `^#{1,6}\s`, `\*\*.*?\*\*`, `\*.*?\*`, `^\s*[-*+]\s`,
    -- searched at every `re.MULTILINE` anchor of the raw string
    anchorAny isHeaderLine content_str.data ||
      hasBold content_str.data || hasItalic content_str.data ||
      anchorAny isListLine content_str.data
  | OutputType.html => hasHtmlTag content_str.data
  | OutputType.csv =>
    let lines := pyLines (pyStrip content_str)
    if lines.length < 2 then false
    else (lines.take 3).all fun ln => containsSub ln.data [',']
  | _ => true

/-- `_validate_word_count_accuracy`: falsy reported word counts pass; a
present nonzero count must be within 10 % of the recount. -/
def validateWordCountAccuracy (output : StructuredOutput) : Bool :=
  if !truthyOptInt output.metadata.word_count then true
  else
    let actual : Int := (pyWords (pyStr output.content)).length
    let reported : Int := output.metadata.word_count.getD 0
    let variance : ℚ := |(actual : ℚ) - (reported : ℚ)| / (max actual 1 : ℚ)
    variance ≤ 1 / 10

/-- `_validate_no_suspicious_content` (the content is lower-cased before
matching). -/
def validateNoSuspiciousContent (output : StructuredOutput) : Bool :=
  let cl := (pyLower (pyStr output.content)).data
  !(hasScriptTag cl || containsSub cl "javascript:".data ||
    hasCallPattern "eval".data cl || hasCallPattern "exec".data cl ||
    hasCallPattern "system".data cl || hasRmRf cl || hasFormatC cl)

/-- `_validate_proper_encoding`: UTF-8 round-tripping always succeeds on
a Python `str`; the check reduces to the absence of the replacement
character (listed twice in the source, as `'�'` and `'�'`) and NUL. -/
def validateProperEncoding (output : StructuredOutput) : Bool :=
  let cs := (pyStr output.content).data
  !(cs.contains (Char.ofNat 0xFFFD) || cs.contains (Char.ofNat 0))

/-- `_validate_json_validity`: dict/list contents always re-serialize
(`json.dumps` succeeds on every modelled value); string contents must
parse. -/
def validateJsonValidity (output : StructuredOutput) : Bool :=
  if output.output_type ≠ OutputType.json then true
  else
    match output.content with
    | PyVal.dict _ => true
    | PyVal.list _ => true
    | _ => (json_loads (pyStr output.content)).isSome

/-- `_validate_markdown_structure`: an even number of `**` markers and
every `#`-initial line a well-formed header. -/
def validateMarkdownStructure (output : StructuredOutput) : Bool :=
  if output.output_type ≠ OutputType.markdown then true
  else
    let content_str := pyStr output.content
    let bold_markers := countSub content_str.data "**".data
    if bold_markers % 2 ≠ 0 then false
    else
      (pyLines content_str).all fun ln =>
        match ln.data with
        | '#' :: _ => isHeaderLine ln.data
        | _ => true

/-- `OutputValidator._create_built_in_rules`. -/
def built_in_rules : List ValidationRule :=
  [ { name := "content_exists"
      description := "Output must have content"
      validator_func := fun output =>
        .ok (!(output.content matches PyVal.none) &&
          pyStrip (pyStr output.content) ≠ "")
      error_message := "Output has no content or empty content"
      weight := 2 },
    { name := "minimum_content_length"
      description := "Content must meet minimum length requirements"
      validator_func := fun output => .ok (pyLen (pyStr output.content) ≥ 10)
      error_message := "Content is too short (less than 10 characters)"
      warning_only := true
      weight := 1 },
    { name := "status_consistency"
      description := "Status should match validation results"
      validator_func := fun output =>
        .ok (!(output.status = OutputStatus.success &&
          truthyOptStr output.error_details))
      error_message := "Status is SUCCESS but error details are present"
      weight := 3 / 2 },
    { name := "metadata_completeness"
      description := "Essential metadata fields should be present"
      validator_func := fun output =>
        -- `timestamp` (a datetime) is always truthy
        .ok (output.metadata.agent_id ≠ "" && output.metadata.agent_role ≠ "")
      error_message :=
        "Missing essential metadata fields (agent_id, agent_role, or timestamp)"
      weight := 3 / 2 },
    { name := "content_type_consistency"
      description := "Content should match declared output type"
      validator_func := fun output => .ok (validateContentTypeConsistency output)
      error_message := "Content does not match declared output type"
      warning_only := true
      weight := 1 },
    { name := "word_count_accuracy"
      description := "Word count metadata should be accurate"
      validator_func := fun output => .ok (validateWordCountAccuracy output)
      error_message :=
        "Word count metadata significantly differs from actual content"
      warning_only := true
      weight := 1 / 2 },
    { name := "no_suspicious_content"
      description := "Content should not contain suspicious patterns"
      validator_func := fun output => .ok (validateNoSuspiciousContent output)
      error_message := "Content contains suspicious patterns"
      weight := 2 },
    { name := "proper_encoding"
      description := "Content should be properly encoded"
      validator_func := fun output => .ok (validateProperEncoding output)
      error_message := "Content has encoding issues"
      weight := 1 },
    { name := "json_validity"
      description := "JSON outputs should be valid JSON"
      validator_func := fun output => .ok (validateJsonValidity output)
      error_message := "JSON content is not valid JSON"
      weight := 2 },
    { name := "markdown_structure"
      description := "Markdown outputs should have proper structure"
      validator_func := fun output => .ok (validateMarkdownStructure output)
      error_message := "Markdown content has structural issues"
      warning_only := true
      weight := 1 / 2 } ]

/-- One iteration of the rule-checking loops of
`OutputValidator.validate_output`: threads `(errors, warnings,
requirements_met)`. -/
def ruleStep (strict_mode : Bool) (output : StructuredOutput)
    (acc : List String × List String × List (String × Bool))
    (rule : ValidationRule) :
    List String × List String × List (String × Bool) :=
  let (errors, warnings, reqs) := acc
  let (is_valid, message) := rule.validate output
  if !is_valid then
    if rule.warning_only && !strict_mode then
      (errors, warnings ++ [rule.name ++ ": " ++ message],
        dictUpdate reqs rule.name false)
    else
      (errors ++ [rule.name ++ ": " ++ message], warnings,
        dictUpdate reqs rule.name false)
  else (errors, warnings, dictUpdate reqs rule.name true)

/-- `rules_to_check = custom_rules or self.custom_rules`: Python `or`
falls through on a falsy (absent or empty) argument. -/
def rulesToCheck (selfCustom : List ValidationRule)
    (custom_rules : Option (List ValidationRule)) : List ValidationRule :=
  match custom_rules with
  | some (r :: rs) => r :: rs
  | _ => selfCustom

/-- Weight lookup of `OutputValidator.validate_output`: the weight of the
first rule with the given name among built-in followed by checked rules,
defaulting to `1.0`. -/
def lookupWeight (rules : List ValidationRule) (rule_name : String) : ℚ :=
  match rules with
  | [] => 1
  | r :: rest => if r.name = rule_name then r.weight else lookupWeight rest rule_name

/-- The `(errors, warnings, requirements_met)` state after schema
validation and both rule loops of `OutputValidator.validate_output`. -/
def validatorState (selfCustom : List ValidationRule)
    (output : StructuredOutput) (schema : Option OutputSchema)
    (custom_rules : Option (List ValidationRule)) (strict_mode : Bool) :
    List String × List String × List (String × Bool) :=
  let init : List String × List String × List (String × Bool) :=
    match schema with
    | some sch =>
      let sv := sch.validate_output output
      (sv.errors, sv.warnings, sv.requirements_met.foldl
        (fun acc kv => dictUpdate acc kv.1 kv.2) [])
    | Option.none => ([], [], [])
  let afterBuiltIn := built_in_rules.foldl (ruleStep strict_mode output) init
  (rulesToCheck selfCustom custom_rules).foldl (ruleStep strict_mode output)
    afterBuiltIn

/-- The weighted validation score computed by
`OutputValidator.validate_output` from the final `requirements_met`. -/
def validatorScore (selfCustom : List ValidationRule)
    (custom_rules : Option (List ValidationRule))
    (requirements_met : List (String × Bool)) : ℚ :=
  if requirements_met.length > 0 then
    let rules := built_in_rules ++ rulesToCheck selfCustom custom_rules
    let weighted_score :=
      (requirements_met.map fun kv =>
        if kv.2 then lookupWeight rules kv.1 else 0).sum
    let total_weight :=
      (requirements_met.map fun kv => lookupWeight rules kv.1).sum
    if total_weight > 0 then weighted_score / total_weight else 0
  else 1

/-- `OutputValidator.validate_output(output, schema, custom_rules,
strict_mode)` (`output_validator.py`, lines 66–153).  `selfCustom` is the
validator's `self.custom_rules` state.  The result is `none` when the
final `OutputValidation(...)` construction raises pydantic's
`ValidationError` (possible only when negative custom rule weights push
the score outside `[0,1]`). -/
def OutputValidator.validate_output (selfCustom : List ValidationRule)
    (output : StructuredOutput) (schema : Option OutputSchema)
    (custom_rules : Option (List ValidationRule)) (strict_mode : Bool) :
    Option OutputValidation :=
  let (errors, warnings, requirements_met) :=
    validatorState selfCustom output schema custom_rules strict_mode
  let validation_score :=
    validatorScore selfCustom custom_rules requirements_met
  mkOutputValidation errors.isEmpty validation_score errors warnings
    requirements_met

/-- The post-state of the `output` argument after
`OutputValidator.validate_output`: the method body performs no assignment
to `output` or its fields, so the translation of its effect on the
argument is the identity. -/
def OutputValidator.validate_output_post (selfCustom : List ValidationRule)
    (output : StructuredOutput) (schema : Option OutputSchema)
    (custom_rules : Option (List ValidationRule)) (strict_mode : Bool) :
    StructuredOutput :=
  let _ := (selfCustom, schema, custom_rules, strict_mode)
  output

/-! ## Processor (`output_processor.py`) -/

/-- `_is_markdown`: any of the six markdown patterns matches (the source
returns on the first hit; existence is order-independent).  The three
`^`-anchored patterns are searched at every `re.MULTILINE` anchor of the
raw string, so a `\s+` satisfied by a line-terminating newline (e.g. the
input `"#\nfoo"`) matches, as in Python. -/
def _is_markdown (s : String) : Bool :=
  anchorAny isHeaderLine s.data ||
    hasBold s.data || hasItalic s.data ||
    anchorAny isListLine s.data ||
    anchorAny isNumberedLine s.data ||
    hasMdLink s.data

/-- `_is_html`. -/
def _is_html (s : String) : Bool := hasHtmlTag s.data

/-- `_is_csv`: at least two stripped lines whose first (up to) three
comma counts are all equal and positive. -/
def _is_csv (s : String) : Bool :=
  let lines := pyLines (pyStrip s)
  if lines.length < 2 then false
  else
    let separators := (lines.take 3).map fun ln => countSub ln.data [',']
    separators.eraseDups.length = 1 && separators.headD 0 > 0

/-- `_determine_output_type(raw_output)`: `yaml_safe_load` models the
external `yaml.safe_load` call (`none` = the library raised
`yaml.YAMLError`). -/
def _determine_output_type (yaml_safe_load : String → Option PyVal)
    (raw : PyVal) : OutputType × PyVal :=
  match raw with
  | PyVal.dict _ => (OutputType.json, raw)
  | PyVal.list _ => (OutputType.json, raw)
  | PyVal.str s =>
    (match json_loads s with
     | some parsed => (OutputType.json, parsed)
     | Option.none =>
       let yamlStep : Option PyVal :=
         match yaml_safe_load s with
         | some (PyVal.dict d) => some (PyVal.dict d)
         | some (PyVal.list xs) => some (PyVal.list xs)
         | _ => Option.none
       match yamlStep with
       | some v => (OutputType.yaml, v)
       | Option.none =>
         if _is_markdown s then (OutputType.markdown, raw)
         else if _is_html s then (OutputType.html, raw)
         else if _is_csv s then (OutputType.csv, raw)
         else (OutputType.text, raw))
  | _ => (OutputType.text, PyVal.str (pyStr raw))

/-- `_calculate_word_count`: for strings, strip HTML tags, markdown links
and formatting characters, then count whitespace-separated words; for
containers, count words of the string values/items. -/
def _calculate_word_count (content : PyVal) : Int :=
  match content with
  | PyVal.str s =>
    let c1 := removeHtmlTags (s.data.length + 1) s.data
    let c2 := removeMdLinks (c1.length + 1) c1
    let c3 := removeMdFormatChars c2
    ((pyWords (String.mk c3)).length : Int)
  | PyVal.dict xs =>
    ((xs.map fun kv =>
      match kv.2 with
      | PyVal.str v => (pyWords v).length
      | _ => 0).sum : Int)
  | PyVal.list xs =>
    ((xs.map fun x =>
      match x with
      | PyVal.str v => (pyWords v).length
      | _ => 0).sum : Int)
  | _ => 0

/-- Citation matches of a string under the five source patterns; the
count is the size of the *set* of match strings. -/
def strSources (s : String) : Option Int :=
  let l := s.data
  let fuel := l.length + 1
  let all :=
    findHttpLinks fuel l ++ findUrls fuel l ++ findParenSources fuel l ++
      findBracketSources fuel l ++ findSourceLabels fuel l
  let distinct := dedupFirst all
  if distinct.length > 0 then some (distinct.length : Int) else Option.none

/-- `_count_sources`.  For dictionaries, a `sources` key holding a list
or string short-circuits; otherwise the counts of the string values are
summed (`if count:` skips falsy counts; a recursive string count is
never `0`, so skipping `None` is the only effect). -/
def _count_sources : PyVal → Option Int
  | PyVal.str s => strSources s
  | PyVal.dict xs =>
    (match dictLookup xs "sources" with
     | some (PyVal.list l) => some (l.length : Int)
     | some (PyVal.str sv) => some ((pyLines sv).length : Int)
     | _ =>
       let total : Int :=
         (xs.map fun kv =>
           match kv.2 with
           | PyVal.str v =>
             (match strSources v with
              | some n => n
              | Option.none => 0)
           | _ => 0).sum
       if total > 0 then some total else Option.none)
  | _ => Option.none

/-- `_extract_confidence_score`.  For dictionaries the four confidence
keys are tried in priority order; a present non-numeric value falls
through to the next key (Python `bool` counts as numeric).  For strings
the three keyword patterns are tried in order; a `float()` failure
(`ValueError`) advances to the next pattern.  Results are clamped to
`[0,1]`: in particular `float('inf')` clamps to `1.0` and
`float('-inf')` to `0.0` under Python's `min`/`max`.  A `nan` value
would be returned as `nan` (every comparison against it is false), a
float that `ℚ` cannot carry; it is mapped to `none` here and no claim
exercises it. -/
def _extract_confidence_score : PyVal → Option ℚ
  | PyVal.dict xs =>
    let tryKey (k : String) : Option ℚ :=
      match dictLookup xs k with
      | some (PyVal.int n) => some (min (max (n : ℚ) 0) 1)
      | some (PyVal.float q) => some (min (max q 0) 1)
      | some (PyVal.bool b) => some (min (max (if b then (1 : ℚ) else 0) 0) 1)
      | some (PyVal.nonfinite neg isNan) =>
        if isNan then Option.none else if neg then some 0 else some 1
      | _ => Option.none
    tryKey "confidence" <|> tryKey "confidence_score" <|>
      tryKey "certainty" <|> tryKey "quality_score"
  | PyVal.str s =>
    let step (kw : String) : Option ℚ :=
      match findKeyNum kw.data s.data with
      | some cap =>
        (match pyFloatOfDigitsDots cap with
         | some q => some (min (max q 0) 1)
         | Option.none => Option.none)
      | Option.none => Option.none
    step "confidence" <|> step "certainty" <|> step "quality"
  | _ => Option.none

/-- `_extract_metadata`. -/
def _extract_metadata (content : PyVal) (agent_id agent_role : String)
    (task_id task_name workflow_id : Option String)
    (execution_time : Option ℚ) : OutputMetadata :=
  { agent_id := agent_id
    agent_role := agent_role
    task_id := task_id
    task_name := task_name
    workflow_id := workflow_id
    execution_time := execution_time
    word_count := some (_calculate_word_count content)
    source_count := _count_sources content
    confidence_score := _extract_confidence_score content }

/-- The line loop of `_parse_markdown_sections`: a header line closes the
current section (saved only when its accumulated content is nonempty) and
opens a new one named by the lower-snake-cased title. -/
def markdownSectionsLoop :
    List String → String → List String → List (String × PyVal) →
      List (String × PyVal)
  | [], current_section, current_content, sections =>
    if !current_content.isEmpty then
      dictUpdate sections current_section
        (PyVal.str (pyStrip (pyJoin "\n" current_content)))
    else sections
  | line :: rest, current_section, current_content, sections =>
    match headerTitle line.data with
    | some title =>
      let sections2 :=
        if !current_content.isEmpty then
          dictUpdate sections current_section
            (PyVal.str (pyStrip (pyJoin "\n" current_content)))
        else sections
      markdownSectionsLoop rest (pyReplace (pyLower title) " " "_") [] sections2
    | Option.none =>
      markdownSectionsLoop rest current_section (current_content ++ [line])
        sections

/-- `_parse_markdown_sections`. -/
def _parse_markdown_sections (content : String) : List (String × PyVal) :=
  markdownSectionsLoop (pyLines content) "introduction" [] []

/-- `re.match(r'^(alt₁|alt₂|…)[:\n]', line, re.IGNORECASE)`: the line
starts with one of the alternatives followed by a colon (a raw newline
cannot occur inside a split line). -/
def matchAltColon (alts : List String) (line : String) : Bool :=
  alts.any fun alt =>
    startsWithCI line.data alt.data &&
      (match line.data.drop alt.length with
       | ':' :: _ => true
       | _ => false)

/-- The section patterns of `_parse_text_sections` (optional-`s` suffixes
expanded into explicit alternatives). -/
def textSectionPatterns : List (List String × String) :=
  [ (["summary", "executive summary"], "summary"),
    (["introduction", "intro"], "introduction"),
    (["findings", "key findings"], "findings"),
    (["analysis", "detailed analysis"], "analysis"),
    (["recommendations", "recommendation"], "recommendations"),
    (["conclusion", "conclusions"], "conclusion"),
    (["sources", "source", "references", "reference"], "sources") ]

/-- The line loop of `_parse_text_sections`. -/
def textSectionsLoop :
    List String → String → List String → List (String × PyVal) →
      List (String × PyVal)
  | [], current_section, current_content, sections =>
    if !current_content.isEmpty then
      dictUpdate sections current_section
        (PyVal.str (pyStrip (pyJoin "\n" current_content)))
    else sections
  | line :: rest, current_section, current_content, sections =>
    match textSectionPatterns.find? (fun p => matchAltColon p.1 line) with
    | some p =>
      let sections2 :=
        if !current_content.isEmpty then
          dictUpdate sections current_section
            (PyVal.str (pyStrip (pyJoin "\n" current_content)))
        else sections
      textSectionsLoop rest p.2 [] sections2
    | Option.none =>
      textSectionsLoop rest current_section (current_content ++ [line]) sections

/-- `_parse_text_sections`. -/
def _parse_text_sections (content : String) : List (String × PyVal) :=
  textSectionsLoop (pyLines content) "content" [] []

/-- `_organize_content_sections`. -/
def _organize_content_sections (content : PyVal) (output_type : OutputType) :
    Option (List (String × PyVal)) :=
  match output_type, content with
  | OutputType.markdown, PyVal.str s => some (_parse_markdown_sections s)
  | OutputType.json, PyVal.dict d => some d
  | _, PyVal.str s => some (_parse_text_sections s)
  | _, _ => Option.none

/-- `_extract_tags`.  A dictionary `tags` entry that is a list
contributes its string elements (a non-string element would raise
`AttributeError` during cleaning in Python, which the exception
parameter of `process_agent_output` covers). -/
def _extract_tags (content : PyVal) : List String :=
  let tags : List String :=
    match content with
    | PyVal.dict xs =>
      (match dictLookup xs "tags" with
       | some (PyVal.list l) =>
         l.filterMap fun x =>
           match x with
           | PyVal.str s => some s
           | _ => Option.none
       | some (PyVal.str sv) => (pySplitComma sv).map pyStrip
       | _ => [])
    | PyVal.str s =>
      let fuel := s.data.length + 1
      findHashtags fuel s.data ++
        ((findKeyLists "tag".data fuel s.data).map
          (fun m => (pySplitComma m).map pyStrip)).flatten
    | _ => []
  let cleaned :=
    dedupFirst ((tags.filter fun t => pyStrip t ≠ "").map
      fun t => pyStripHash (pyLower t))
  cleaned.take 10

/-- `_extract_keywords`. -/
def _extract_keywords (content : PyVal) : List String :=
  let keywords : List String :=
    match content with
    | PyVal.dict xs =>
      (match dictLookup xs "keywords" with
       | some (PyVal.list l) =>
         l.filterMap fun x =>
           match x with
           | PyVal.str s => some s
           | _ => Option.none
       | some (PyVal.str sv) => (pySplitComma sv).map pyStrip
       | _ => [])
    | PyVal.str s =>
      let fuel := s.data.length + 1
      ((findKeyLists "keyword".data fuel s.data).map
        (fun m => (pySplitComma m).map pyStrip)).flatten ++
        findCapWords fuel s.data false
    | _ => []
  let cleaned :=
    dedupFirst ((keywords.filter fun k => pyStrip k ≠ "").map
      fun k => pyStrip (pyLower k))
  cleaned.take 15

/-- The `try` block of `process_agent_output` (`output_processor.py`,
lines 63–104), translated statement by statement. -/
def process_try (yaml_safe_load : String → Option PyVal) (raw : PyVal)
    (agent_id agent_role : String)
    (task_id task_name workflow_id : Option String)
    (execution_time : Option ℚ) (schema : Option OutputSchema) :
    StructuredOutput :=
  let tc := _determine_output_type yaml_safe_load raw
  let output_type := tc.1
  let content := tc.2
  let metadata :=
    _extract_metadata content agent_id agent_role task_id task_name
      workflow_id execution_time
  let sections := _organize_content_sections content output_type
  let structured_output : StructuredOutput :=
    { content := content
      output_type := output_type
      status := OutputStatus.success
      metadata := metadata
      sections := sections
      tags := _extract_tags content
      keywords := _extract_keywords content }
  match schema with
  | some sch =>
    let validation := sch.validate_output structured_output
    let so2 := { structured_output with validation := some validation }
    if !validation.is_valid then
      { so2 with
        status := OutputStatus.Partial
        processing_notes := so2.processing_notes ++
          ["Validation failed with " ++ toString validation.errors.length ++
            " errors"] }
    else so2
  | Option.none => structured_output

/-- `process_agent_output` (`output_processor.py`, lines 36–123).
`exc = some e` models "some statement of the `try` block raised an
exception whose `str()` is `e`"; the `except` clause then builds the
failed output.  With `exc = none` the `try` block completes and its
translation `process_try` gives the result.  The function is total: no
exception escapes. -/
def process_agent_output (yaml_safe_load : String → Option PyVal)
    (exc : Option String) (raw : PyVal) (agent_id agent_role : String)
    (task_id task_name workflow_id : Option String)
    (execution_time : Option ℚ) (schema : Option OutputSchema) :
    StructuredOutput :=
  match exc with
  | some e =>
    { content := PyVal.str (pyStr raw)
      output_type := OutputType.text
      status := OutputStatus.failed
      metadata :=
        { agent_id := agent_id
          agent_role := agent_role
          task_id := task_id
          task_name := task_name
          workflow_id := workflow_id
          execution_time := execution_time }
      error_details := some e }
  | Option.none =>
    process_try yaml_safe_load raw agent_id agent_role task_id task_name
      workflow_id execution_time schema

/-! ## Aggregator (`result_aggregator.py`) -/

/-- A raised Python exception (`create_consolidated_output` raises
`ValueError` on bad input). -/
inductive PyError where
  | valueError (msg : String)
deriving Repr, DecidableEq

/-- `StructuredOutput.get_content_preview(max_length)`: all three
branches of the source compute the same truncation of `str(content)`. -/
def get_content_preview (o : StructuredOutput) (max_length : Nat) : String :=
  let s := pyStr o.content
  s.take max_length ++ (if s.length > max_length then "..." else "")

/-- Python `str.title()` (ASCII fragment). -/
def pyTitleAux : Bool → List Char → List Char
  | _, [] => []
  | prevAlpha, c :: r =>
    let isAl := pyIsLowerAlpha c || pyIsUpperAlpha c
    let c2 := if isAl then (if prevAlpha then c.toLower else c.toUpper) else c
    c2 :: pyTitleAux isAl r

def pyTitle (s : String) : String := String.mk (pyTitleAux false s.data)

/-- Round half to even (model of CPython `round` on the idealized
decimal value). -/
def roundHalfEven (q : ℚ) : Int :=
  let f := Int.floor q
  let frac := q - f
  if frac < 1 / 2 then f
  else if frac > 1 / 2 then f + 1
  else if f % 2 = 0 then f else f + 1

/-- Python `round(x, 2)`. -/
def pyRound2 (q : ℚ) : ℚ := (roundHalfEven (q * 100) : ℚ) / 100

/-- Python format `\x7b:,\x7d` (thousands separators). -/
def groupThousandsRev : List Char → List Char
  | a :: b :: c :: d :: rest => a :: b :: c :: ',' :: groupThousandsRev (d :: rest)
  | l => l

def pyFormatComma (n : Int) : String :=
  let digits := (toString n.natAbs).data
  (if n < 0 then "-" else "") ++
    String.mk (groupThousandsRev digits.reverse).reverse

/-- Python format `\x7b:.1%\x7d` (percentage with one decimal), on
nonnegative values. -/
def pyFormatPercent1 (q : ℚ) : String :=
  let r := roundHalfEven (q * 1000)
  toString (r / 10) ++ "." ++ toString (r % 10) ++ "%"

/-- The status priority dictionary of `_merge_outputs`:
`\x7bFAILED: 0, PARTIAL: 1, SUCCESS: 2\x7d.get(status, 0)` (a `PENDING`
status falls to the default `0`). -/
def statusPriority : OutputStatus → Nat
  | OutputStatus.failed => 0
  | OutputStatus.Partial => 1
  | OutputStatus.success => 2
  | OutputStatus.pending => 0

/-- The confidence values used by the `mean(...) if any(...) else None`
idiom: the truthy (present and nonzero) confidence scores. -/
def truthyConfidences (outputs : List StructuredOutput) : List ℚ :=
  outputs.filterMap fun o =>
    if truthyOptQ o.metadata.confidence_score then o.metadata.confidence_score
    else Option.none

/-- `_merge_outputs(outputs, agent_role)` (`result_aggregator.py`, lines
267–319).  The only caller guards `outputs ≠ []` (Python `min` of an
empty sequence would raise); the `[]` equation is an arbitrary
unreachable value. -/
def _merge_outputs (outputs : List StructuredOutput) (agent_role : String) :
    StructuredOutput :=
  match outputs with
  | [] => { content := PyVal.str "", metadata := { agent_id := "consolidated", agent_role := agent_role } }
  | first :: rest =>
    let merged_content_parts := outputs.map fun o =>
      "## " ++ o.metadata.agent_role ++ " Output\n\n" ++ pyStr o.content
    let merged_sections := outputs.foldl (fun acc o =>
      match o.sections with
      | some secs =>
        if secs.isEmpty then acc
        else
          secs.foldl (fun acc2 kv =>
            dictUpdate acc2
              (pyReplace (pyLower o.metadata.agent_role) " " "_" ++ "_" ++ kv.1)
              kv.2) acc
      | Option.none => acc) []
    let all_tags := dedupFirst (outputs.map (·.tags)).flatten
    let all_keywords := dedupFirst (outputs.map (·.keywords)).flatten
    let total_words : Int := (outputs.map fun o => o.metadata.word_count.getD 0).sum
    let total_execution_time : ℚ :=
      (outputs.map fun o => o.metadata.execution_time.getD 0).sum
    let cs := truthyConfidences outputs
    let avg_confidence : Option ℚ := if cs.isEmpty then Option.none else some (pyMean cs)
    let overall_status := (pyMinBy (fun o => statusPriority o.status) first rest).status
    { content := PyVal.str (pyJoin "\n\n" merged_content_parts)
      output_type := OutputType.markdown
      status := overall_status
      metadata :=
        { agent_id := "consolidated"
          agent_role := agent_role
          workflow_id := first.metadata.workflow_id
          word_count := some total_words
          execution_time := some total_execution_time
          confidence_score := avg_confidence
          source_count :=
            some ((outputs.map fun o => o.metadata.source_count.getD 0).sum) }
      sections := some merged_sections
      tags := all_tags
      keywords := all_keywords
      processing_notes :=
        ["Consolidated from " ++ toString outputs.length ++ " agent outputs"] }

/-- `_summarize_outputs(outputs, agent_role)` (lines 321–371). -/
def _summarize_outputs (outputs : List StructuredOutput) (agent_role : String) :
    StructuredOutput :=
  let statusEmoji (o : StructuredOutput) : String :=
    if o.status = OutputStatus.success then "✅"
    else if o.status = OutputStatus.Partial then "⚠️" else "❌"
  let overview := outputs.map fun o =>
    "- " ++ statusEmoji o ++ " **" ++ o.metadata.agent_role ++ "**: " ++
      get_content_preview o 100
  let key_section_names := ["summary", "findings", "conclusion", "recommendations"]
  let key_sections : List (String × List String) :=
    outputs.foldl (fun acc o =>
      match o.sections with
      | some secs =>
        if secs.isEmpty then acc
        else
          secs.foldl (fun acc2 kv =>
            if key_section_names.contains (pyLower kv.1) then
              let entry := "**" ++ o.metadata.agent_role ++ "**: " ++
                (pyStr kv.2).take 300 ++ "..."
              match dictLookup acc2 kv.1 with
              | some l => dictUpdate acc2 kv.1 (l ++ [entry])
              | Option.none => acc2 ++ [(kv.1, [entry])]
            else acc2) acc
      | Option.none => acc) []
    -- (a `defaultdict(list)` keyed by section name, in insertion order)
  let findings := (key_sections.map fun kv =>
    ["### " ++ pyTitle kv.1 ++ "\n"] ++ kv.2 ++ [""]).flatten
  let total_words : Int := (outputs.map fun o => o.metadata.word_count.getD 0).sum
  let cs := truthyConfidences outputs
  let avg_confidence : Option ℚ := if cs.isEmpty then Option.none else some (pyMean cs)
  let success_count := (outputs.filter fun o => o.status = OutputStatus.success).length
  let summary_parts :=
    ["# Workflow Summary\n",
      "This summary consolidates results from " ++ toString outputs.length ++
        " agents:\n"] ++
    overview ++ ["\n## Key Findings\n"] ++ findings ++
    ["## Workflow Metrics\n",
      "- **Total Word Count**: " ++ pyFormatComma total_words,
      if truthyOptQ avg_confidence then
        "- **Average Confidence**: " ++ pyFormatPercent1 (avg_confidence.getD 0)
      else "- **Average Confidence**: N/A",
      "- **Successful Outputs**: " ++ toString success_count ++ "/" ++
        toString outputs.length]
  let content := pyJoin "\n" summary_parts
  { content := PyVal.str content
    output_type := OutputType.markdown
    status := OutputStatus.success
    metadata :=
      { agent_id := "summary"
        agent_role := agent_role
        workflow_id := (outputs.head?).bind (·.metadata.workflow_id)
        word_count := some ((pyWords content).length : Int)
        source_count :=
          some ((outputs.map fun o => o.metadata.source_count.getD 0).sum) }
    processing_notes :=
      ["Summary generated from " ++ toString outputs.length ++ " agent outputs"] }

/-- The quality score of `_select_best_output.score_output`. -/
def score_output (o : StructuredOutput) : ℚ :=
  (if o.status = OutputStatus.success then 3
   else if o.status = OutputStatus.Partial then 1 else 0) +
  (match o.validation with
   | some v => v.validation_score * 2
   | Option.none => 0) +
  (if truthyOptInt o.metadata.word_count then
    min ((o.metadata.word_count.getD 0 : ℚ) / 1000) 2
  else 0) +
  (if truthyOptQ o.metadata.confidence_score then
    o.metadata.confidence_score.getD 0 * 1
  else 0) +
  (if truthyOptDict o.sections then ((o.sections.getD []).length : ℚ) * (1 / 10)
   else 0)

/-- `_select_best_output(outputs, agent_role)` (lines 373–431): clone of
the highest-scoring output with rewritten identity.  The `[]` equation is
unreachable (Python `max` of an empty sequence raises; the only caller
guards nonemptiness). -/
def _select_best_output (outputs : List StructuredOutput)
    (agent_role : String) : StructuredOutput :=
  match outputs with
  | [] => { content := PyVal.str "", metadata := { agent_id := "best_selected", agent_role := agent_role } }
  | first :: rest =>
    let best_output := pyMaxBy score_output first rest
    { content := best_output.content
      output_type := best_output.output_type
      status := best_output.status
      metadata :=
        { agent_id := "best_selected"
          agent_role := agent_role
          task_id := best_output.metadata.task_id
          task_name := best_output.metadata.task_name
          workflow_id := best_output.metadata.workflow_id
          word_count := best_output.metadata.word_count
          execution_time := best_output.metadata.execution_time
          confidence_score := best_output.metadata.confidence_score
          source_count := best_output.metadata.source_count }
      validation := best_output.validation
      sections := best_output.sections
      tags := best_output.tags
      keywords := best_output.keywords
      processing_notes := best_output.processing_notes ++
        ["Selected as best from " ++ toString outputs.length ++ " outputs"] }

/-- `create_consolidated_output(outputs, consolidation_strategy,
target_agent_role)` (lines 238–265): raises `ValueError` on an empty
output list or an unknown strategy. -/
def create_consolidated_output (outputs : List StructuredOutput)
    (consolidation_strategy : String) (target_agent_role : String) :
    Except PyError StructuredOutput :=
  if outputs.isEmpty then
    .error (PyError.valueError "No outputs provided for consolidation")
  else if consolidation_strategy = "merge" then
    .ok (_merge_outputs outputs target_agent_role)
  else if consolidation_strategy = "summary" then
    .ok (_summarize_outputs outputs target_agent_role)
  else if consolidation_strategy = "best" then
    .ok (_select_best_output outputs target_agent_role)
  else
    .error (PyError.valueError
      ("Unknown consolidation strategy: " ++ consolidation_strategy))

/-- Per-criterion comparison data of `_compare_by_criterion`: the value
list, the agent list, and min/max/avg/median over the numeric values
(present exactly when some value is numeric). -/
structure CriterionComparison where
  values : List PyVal
  agents : List String
  minVal : Option ℚ := Option.none
  maxVal : Option ℚ := Option.none
  avgVal : Option ℚ := Option.none
  medianVal : Option ℚ := Option.none
deriving Repr

/-- One row of the ranking of `_rank_outputs`. -/
structure RankEntry where
  rank : Nat
  agent : String
  score : ℚ
  status : OutputStatus
  word_count : Option Int
  validation_score : Option ℚ
deriving Repr

/-- The value of `generate_comparison_report`: either the error-shaped
dictionary `\x7b"error": ...\x7d` or the report dictionary. -/
inductive ComparisonReport where
  | errorDict (msg : String)
  | report (output_count : Nat) (comparison_criteria : List String)
      (agents : List String)
      (detailed_comparison : List (String × CriterionComparison))
      (ranking : List RankEntry)
deriving Repr

/-- The string value stored for a status under pydantic's
`use_enum_values` (used where a status lands in a heterogeneous list). -/
def statusValue : OutputStatus → String
  | OutputStatus.success => "success"
  | OutputStatus.Partial => "partial"
  | OutputStatus.failed => "failed"
  | OutputStatus.pending => "pending"

def outputTypeValue : OutputType → String
  | OutputType.text => "text"
  | OutputType.json => "json"
  | OutputType.markdown => "markdown"
  | OutputType.html => "html"
  | OutputType.csv => "csv"
  | OutputType.xml => "xml"
  | OutputType.yaml => "yaml"

/-- Minimum of a nonempty rational list (callers guard nonemptiness). -/
def listMinQ : List ℚ → ℚ
  | [] => 0
  | h :: t => t.foldl min h

def listMaxQ : List ℚ → ℚ
  | [] => 0
  | h :: t => t.foldl max h

/-- `_compare_by_criterion(outputs, criterion)` (lines 471–506). -/
def _compare_by_criterion (outputs : List StructuredOutput)
    (criterion : String) : CriterionComparison :=
  let values : List PyVal := outputs.map fun o =>
    if criterion = "word_count" then PyVal.int (o.metadata.word_count.getD 0)
    else if criterion = "execution_time" then
      PyVal.float (o.metadata.execution_time.getD 0)
    else if criterion = "confidence_score" then
      PyVal.float (o.metadata.confidence_score.getD 0)
    else if criterion = "validation_score" then
      PyVal.float ((o.validation.map (·.validation_score)).getD 0)
    else if criterion = "status" then PyVal.str (statusValue o.status)
    else if criterion = "content_type" then
      PyVal.str (outputTypeValue o.output_type)
    else PyVal.str "N/A"
  let numeric_values : List ℚ := values.filterMap fun v =>
    match v with
    | PyVal.int n => some (n : ℚ)
    | PyVal.float q => some q
    | _ => Option.none
  let agents := outputs.map (·.metadata.agent_role)
  if numeric_values.isEmpty then
    { values := values, agents := agents }
  else
    { values := values
      agents := agents
      minVal := some (listMinQ numeric_values)
      maxVal := some (listMaxQ numeric_values)
      avgVal := some (pyMean numeric_values)
      medianVal := some (pyMedian numeric_values) }

/-- The ranking score of `_rank_outputs` (before rounding). -/
def rankScore (o : StructuredOutput) : ℚ :=
  (if o.status = OutputStatus.success then 30
   else if o.status = OutputStatus.Partial then 15 else 0) +
  (match o.validation with
   | some v => v.validation_score * 25
   | Option.none => 0) +
  (if truthyOptInt o.metadata.word_count then
    min ((o.metadata.word_count.getD 0 : ℚ) / 100) 20
  else 0) +
  (if truthyOptQ o.metadata.confidence_score then
    o.metadata.confidence_score.getD 0 * 15
  else 0) +
  (if truthyOptDict o.sections then
    min (((o.sections.getD []).length : ℚ) * 2) 10
  else 0)

/-- Stable insertion into a descending-by-key list (equal keys go after
existing entries, preserving original order — the stability of
`sorted(..., reverse=True)`). -/
def insertDescend {α : Type} (key : α → ℚ) (x : α) : List α → List α
  | [] => [x]
  | y :: ys => if key y < key x then x :: y :: ys else y :: insertDescend key x ys

/-- Stable sort by descending key. -/
def stableSortDesc {α : Type} (key : α → ℚ) (l : List α) : List α :=
  l.foldl (fun acc x => insertDescend key x acc) []

/-- `_rank_outputs(outputs)` (lines 508–551): score, stable descending
sort, ranks `1..n`. -/
def _rank_outputs (outputs : List StructuredOutput) : List RankEntry :=
  let scored := outputs.map fun o =>
    { rank := 0
      agent := o.metadata.agent_role
      score := pyRound2 (rankScore o)
      status := o.status
      word_count := o.metadata.word_count
      validation_score := o.validation.map (·.validation_score) : RankEntry }
  let sorted := stableSortDesc (·.score) scored
  (sorted.zip (List.range sorted.length)).map fun p => { p.1 with rank := p.2 + 1 }

/-- `generate_comparison_report(outputs, comparison_criteria)` (lines
433–469): fewer than two outputs yield the error-shaped dictionary, not
an exception. -/
def generate_comparison_report (outputs : List StructuredOutput)
    (comparison_criteria : Option (List String)) : ComparisonReport :=
  if outputs.length < 2 then
    ComparisonReport.errorDict "Need at least 2 outputs for comparison"
  else
    let criteria := comparison_criteria.getD
      ["word_count", "execution_time", "confidence_score",
        "validation_score", "status", "content_type"]
    ComparisonReport.report outputs.length criteria
      (outputs.map (·.metadata.agent_role))
      (criteria.foldl (fun acc c =>
        dictUpdate acc c (_compare_by_criterion outputs c)) [])
      (_rank_outputs outputs)

/-! ### `WorkflowResult._calculate_analytics` (lines 62–117) -/

structure AgentPerformance where
  output_count : Nat
  success_rate : ℚ
  avg_word_count : Option ℚ
  avg_execution_time : Option ℚ
deriving Repr

structure ContentMetrics where
  total_words : ℚ
  avg_words_per_output : ℚ
  min_words : ℚ
  max_words : ℚ
  median_words : ℚ
deriving Repr

structure PerformanceMetrics where
  total_execution_time : ℚ
  avg_task_time : ℚ
  min_task_time : ℚ
  max_task_time : ℚ
  avg_confidence : Option ℚ
  min_confidence : Option ℚ
  max_confidence : Option ℚ
deriving Repr

structure QualityMetrics where
  outputs_with_validation : Nat
  avg_validation_score : Option ℚ
  outputs_with_errors : Nat
  outputs_with_warnings : Nat
deriving Repr

structure Analytics where
  total_outputs : Nat
  status_distribution : List (OutputStatus × Nat)
  success_rate : ℚ
  agent_count : Nat
  agent_performance : List (String × AgentPerformance)
  content_metrics : ContentMetrics
  performance_metrics : PerformanceMetrics
  quality_metrics : QualityMetrics
deriving Repr

/-- The truthy (present and nonzero) word counts, as rationals: the list
`[o.metadata.word_count for o in outputs if o.metadata.word_count]`. -/
def truthyWordCounts (outputs : List StructuredOutput) : List ℚ :=
  outputs.filterMap fun o =>
    if truthyOptInt o.metadata.word_count then
      some ((o.metadata.word_count.getD 0 : ℚ))
    else Option.none

/-- The truthy execution times. -/
def truthyExecutionTimes (outputs : List StructuredOutput) : List ℚ :=
  outputs.filterMap fun o =>
    if truthyOptQ o.metadata.execution_time then o.metadata.execution_time
    else Option.none

/-- The validation scores of the outputs carrying a validation object
(an attached `OutputValidation` is always truthy). -/
def presentValidationScores (outputs : List StructuredOutput) : List ℚ :=
  outputs.filterMap fun o => o.validation.map (·.validation_score)

/-- Analytics of one agent's outputs (the body of the
`agent_performance` comprehension). -/
def agentPerformanceOf (outs : List StructuredOutput) : AgentPerformance :=
  let ws := truthyWordCounts outs
  let ts := truthyExecutionTimes outs
  { output_count := outs.length
    success_rate :=
      ((outs.filter fun o => o.status = OutputStatus.success).length : ℚ) /
        (outs.length : ℚ)
    avg_word_count := if ws.isEmpty then Option.none else some (pyMean ws)
    avg_execution_time := if ts.isEmpty then Option.none else some (pyMean ts) }

/-- `WorkflowResult._calculate_analytics`.  `execution_time_total` is the
`WorkflowResult.execution_time` wall-clock difference (an external
`datetime` computation).  The result is `none` exactly when the source
returns the `\x7b"error": "No outputs to analyze"\x7d` dictionary. -/
def _calculate_analytics (outputs : List StructuredOutput)
    (execution_time_total : ℚ) : Option Analytics :=
  if outputs.isEmpty then Option.none
  else
    let total_outputs := outputs.length
    let statuses := outputs.map (·.status)
    let roles := (outputs.map (·.metadata.agent_role)).eraseDups
    let word_counts := truthyWordCounts outputs
    let execution_times := truthyExecutionTimes outputs
    let confidence_scores := truthyConfidences outputs
    let validation_scores := presentValidationScores outputs
    some
      { total_outputs := total_outputs
        status_distribution := statuses.eraseDups.map fun st =>
          (st, (statuses.filter (· = st)).length)
        success_rate :=
          ((statuses.filter (· = OutputStatus.success)).length : ℚ) /
            (total_outputs : ℚ)
        agent_count := roles.length
        agent_performance := roles.map fun role =>
          (role, agentPerformanceOf
            (outputs.filter fun o => o.metadata.agent_role = role))
        content_metrics :=
          { total_words := word_counts.sum
            avg_words_per_output :=
              if word_counts.isEmpty then 0 else pyMean word_counts
            min_words := if word_counts.isEmpty then 0 else listMinQ word_counts
            max_words := if word_counts.isEmpty then 0 else listMaxQ word_counts
            median_words :=
              if word_counts.isEmpty then 0 else pyMedian word_counts }
        performance_metrics :=
          { total_execution_time := execution_time_total
            avg_task_time :=
              if execution_times.isEmpty then 0 else pyMean execution_times
            min_task_time :=
              if execution_times.isEmpty then 0 else listMinQ execution_times
            max_task_time :=
              if execution_times.isEmpty then 0 else listMaxQ execution_times
            avg_confidence :=
              if confidence_scores.isEmpty then Option.none
              else some (pyMean confidence_scores)
            min_confidence :=
              if confidence_scores.isEmpty then Option.none
              else some (listMinQ confidence_scores)
            max_confidence :=
              if confidence_scores.isEmpty then Option.none
              else some (listMaxQ confidence_scores) }
        quality_metrics :=
          { outputs_with_validation :=
              (outputs.filter fun o => o.validation.isSome).length
            avg_validation_score :=
              if validation_scores.isEmpty then Option.none
              else some (pyMean validation_scores)
            outputs_with_errors := (outputs.filter fun o =>
              match o.validation with
              | some v => !v.errors.isEmpty
              | Option.none => false).length
            outputs_with_warnings := (outputs.filter fun o =>
              match o.validation with
              | some v => !v.warnings.isEmpty
              | Option.none => false).length } }

/-! ## Specification-side definitions

Definitions following the spec's words, used to state refinement claims
against the code-derived definitions above. -/

/-- From the spec's words: the *worst* status present in a list, under
the priority order `failed < partial < success`. -/
def worstStatusSpec (statuses : List OutputStatus) : OutputStatus :=
  if statuses.contains OutputStatus.failed then OutputStatus.failed
  else if statuses.contains OutputStatus.Partial then OutputStatus.Partial
  else OutputStatus.success

/-- From the spec's words: a mean "computed only over outputs where the
value is present" — `none` when no output carries the value. -/
def meanOverPresent (f : StructuredOutput → Option ℚ)
    (outputs : List StructuredOutput) : Option ℚ :=
  let vs := outputs.filterMap f
  if vs.isEmpty then Option.none else some (pyMean vs)

/-- The score formula exactly as claim C6 words it: the sum of the
weights of the satisfied requirements divided by the sum of the weights
of all requirements (`1.0` when there are no requirements), with a
requirement's weight that of the first rule of the given list bearing
its name, defaulting to `1.0`. -/
def claimScore (rules : List ValidationRule)
    (reqs : List (String × Bool)) : ℚ :=
  if reqs.isEmpty then 1
  else
    ((reqs.filter (·.2)).map fun kv => lookupWeight rules kv.1).sum /
      ((reqs.map fun kv => lookupWeight rules kv.1).sum)

/-! ## Claim theorems -/

/-- A failed output, as the consolidation strategies may receive one
(its own `error_details` is even populated). -/
def C1cexOutput : StructuredOutput :=
  { content := PyVal.str "partial result before crash"
    output_type := OutputType.text
    status := OutputStatus.failed
    metadata := { agent_id := "agent_0", agent_role := "Researcher" }
    error_details := some "upstream tool timeout" }

/-- C1, counterexample: consolidating the single failed output above with
the `merge` strategy yields an output whose status is `failed` but whose
`error_details` is `None` — `_merge_outputs` never populates
`error_details`, refuting the claimed invariant for the merge strategy. -/
theorem C1_counterexample :
    create_consolidated_output [C1cexOutput] "merge" "Consolidated Agent" =
      Except.ok (_merge_outputs [C1cexOutput] "Consolidated Agent") ∧
    (_merge_outputs [C1cexOutput] "Consolidated Agent").status =
      OutputStatus.failed ∧
    (_merge_outputs [C1cexOutput] "Consolidated Agent").error_details =
      Option.none := by
  refine ⟨rfl, rfl, rfl⟩

/-- C1 as amended: `process_agent_output`'s failure path stores the
exception message in `error_details` (hence non-empty exactly when the
message is), while the `merge` and `best` consolidation strategies never
set `error_details` at all — even when the consolidated status is
`failed`. -/
theorem C1_amended :
    (∀ (yaml_safe_load : String → Option PyVal) (e : String) (raw : PyVal)
      (agent_id agent_role : String)
      (task_id task_name workflow_id : Option String)
      (execution_time : Option ℚ) (schema : Option OutputSchema),
      (process_agent_output yaml_safe_load (some e) raw agent_id agent_role
          task_id task_name workflow_id execution_time schema).status =
        OutputStatus.failed ∧
      (process_agent_output yaml_safe_load (some e) raw agent_id agent_role
          task_id task_name workflow_id execution_time schema).error_details =
        some e) ∧
    (∀ (outputs : List StructuredOutput) (agent_role : String),
      (_merge_outputs outputs agent_role).error_details = Option.none) ∧
    (∀ (outputs : List StructuredOutput) (agent_role : String),
      (_select_best_output outputs agent_role).error_details = Option.none) := by
  refine ⟨fun _ _ _ _ _ _ _ _ _ _ => ⟨rfl, rfl⟩, fun outputs role => ?_,
    fun outputs role => ?_⟩
  · cases outputs <;> rfl
  · cases outputs <;> rfl

/-- C3: whenever a step of the `try` block of `process_agent_output`
raises (exception message `e`), the function still returns — with status
`failed`, content the stringified raw input, output type `text`, and
`error_details` the exception message; the provenance arguments are
copied into the metadata.  (The Lean translation is total: the model of
the function never raises.) -/
theorem C3_failure_path (yaml_safe_load : String → Option PyVal) (e : String)
    (raw : PyVal) (agent_id agent_role : String)
    (task_id task_name workflow_id : Option String)
    (execution_time : Option ℚ) (schema : Option OutputSchema) :
    process_agent_output yaml_safe_load (some e) raw agent_id agent_role
        task_id task_name workflow_id execution_time schema =
      { content := PyVal.str (pyStr raw)
        output_type := OutputType.text
        status := OutputStatus.failed
        metadata :=
          { agent_id := agent_id
            agent_role := agent_role
            task_id := task_id
            task_name := task_name
            workflow_id := workflow_id
            execution_time := execution_time }
        error_details := some e } := rfl

/-- C8: consolidating an empty output list raises `ValueError` (for any
strategy), while a comparison report over fewer than two outputs returns
the error-shaped dictionary value — `generate_comparison_report` is a
total function into `ComparisonReport` values and raises nothing. -/
theorem C8_preconditions :
    (∀ (strategy target_agent_role : String),
      create_consolidated_output [] strategy target_agent_role =
        Except.error
          (PyError.valueError "No outputs provided for consolidation")) ∧
    (∀ (outputs : List StructuredOutput)
      (criteria : Option (List String)), outputs.length < 2 →
      generate_comparison_report outputs criteria =
        ComparisonReport.errorDict "Need at least 2 outputs for comparison") := by
  refine ⟨fun _ _ => rfl, fun outputs criteria h => ?_⟩
  simp only [generate_comparison_report, if_pos h]

/-- A plain successful text output, reused as a neutral concrete input. -/
def sampleTextOutput : StructuredOutput :=
  { content := PyVal.str "hello world example content"
    output_type := OutputType.text
    status := OutputStatus.success
    metadata := { agent_id := "agent_1", agent_role := "Writer" } }

/-- C8, witness: the two preconditions exercised concretely — an empty
consolidation and a one-output comparison. -/
theorem C8_preconditions_witness :
    create_consolidated_output [] "merge" "Consolidated Agent" =
      Except.error
        (PyError.valueError "No outputs provided for consolidation") ∧
    generate_comparison_report [sampleTextOutput] Option.none =
      ComparisonReport.errorDict "Need at least 2 outputs for comparison" :=
  ⟨C8_preconditions.1 "merge" "Consolidated Agent",
    C8_preconditions.2 [sampleTextOutput] Option.none (by decide)⟩

/-- The status-level view of `min(outputs, key=priority)`. -/
def minStatusFold (s : OutputStatus) (l : List OutputStatus) : OutputStatus :=
  l.foldl (fun a y => if statusPriority y < statusPriority a then y else a) s

lemma pyMinBy_status_eq (t : List StructuredOutput) (acc : StructuredOutput) :
    (pyMinBy (fun o => statusPriority o.status) acc t).status =
      minStatusFold acc.status (t.map (·.status)) := by
  induction t generalizing acc with
  | nil => rfl
  | cons y t ih =>
    show (pyMinBy (fun o => statusPriority o.status)
        (if statusPriority y.status < statusPriority acc.status then y else acc)
        t).status = _
    rw [ih]
    have : (if statusPriority y.status < statusPriority acc.status then y
        else acc).status =
        if statusPriority y.status < statusPriority acc.status then y.status
        else acc.status := by
      split <;> rfl
    rw [this]
    rfl

lemma minStatusFold_worst (l : List OutputStatus) (s : OutputStatus)
    (hs : s ≠ OutputStatus.pending)
    (hl : ∀ x ∈ l, x ≠ OutputStatus.pending) :
    minStatusFold s l = worstStatusSpec (s :: l) := by
  induction l generalizing s with
  | nil =>
    cases s <;> simp_all [minStatusFold, worstStatusSpec]
  | cons y l ih =>
    have hy : y ≠ OutputStatus.pending := hl y (List.mem_cons_self y l)
    have hl2 : ∀ x ∈ l, x ≠ OutputStatus.pending :=
      fun x hx => hl x (List.mem_cons_of_mem y hx)
    have step : minStatusFold s (y :: l) =
        minStatusFold
          (if statusPriority y < statusPriority s then y else s) l := rfl
    rw [step, ih _ (by split <;> assumption) hl2]
    cases s <;> cases y <;>
      simp_all [worstStatusSpec, statusPriority, List.contains_cons]

/-- C2: for a nonempty output list whose statuses avoid `pending`, the
`merge` consolidation succeeds and its status is the *worst* status
present under the priority `failed < partial < success`. -/
theorem C2_merge_worst_status (outputs : List StructuredOutput)
    (role : String) (hne : outputs ≠ [])
    (hs : ∀ o ∈ outputs, o.status ≠ OutputStatus.pending) :
    create_consolidated_output outputs "merge" role =
      Except.ok (_merge_outputs outputs role) ∧
    (_merge_outputs outputs role).status =
      worstStatusSpec (outputs.map (·.status)) := by
  obtain ⟨first, rest, rfl⟩ : ∃ f r, outputs = f :: r := by
    cases outputs with
    | nil => exact absurd rfl hne
    | cons f r => exact ⟨f, r, rfl⟩
  refine ⟨by simp [create_consolidated_output], ?_⟩
  have h1 : (_merge_outputs (first :: rest) role).status =
      (pyMinBy (fun o => statusPriority o.status) first rest).status := rfl
  rw [h1, pyMinBy_status_eq, minStatusFold_worst]
  · rfl
  · exact hs first (List.mem_cons_self first rest)
  · intro x hx
    obtain ⟨o, ho, rfl⟩ := List.mem_map.mp hx
    exact hs o (List.mem_cons_of_mem first ho)

def C2outA : StructuredOutput :=
  { content := PyVal.str "research findings"
    status := OutputStatus.success
    metadata := { agent_id := "agent_0", agent_role := "Researcher" } }

def C2outB : StructuredOutput :=
  { content := PyVal.str "draft article"
    status := OutputStatus.success
    metadata := { agent_id := "agent_1", agent_role := "Writer" } }

def C2outC : StructuredOutput :=
  { content := PyVal.str "review crashed"
    status := OutputStatus.failed
    metadata := { agent_id := "agent_2", agent_role := "Reviewer" }
    error_details := some "tool failure" }

/-- C2, witness: statuses `[success, success, failed]` merge to a
`failed` consolidated output. -/
theorem C2_merge_worst_status_witness :
    create_consolidated_output [C2outA, C2outB, C2outC] "merge"
        "Consolidated Agent" =
      Except.ok (_merge_outputs [C2outA, C2outB, C2outC] "Consolidated Agent") ∧
    (_merge_outputs [C2outA, C2outB, C2outC] "Consolidated Agent").status =
      OutputStatus.failed :=
  have h := C2_merge_worst_status [C2outA, C2outB, C2outC] "Consolidated Agent"
    (List.cons_ne_nil _ _) (by decide)
  ⟨h.1, h.2.trans (by decide)⟩

/-- Claim C5's premise "matches `^#\s` at a line start": the suffix at a
`re.MULTILINE` anchor begins with `#` followed by a whitespace character.
The whitespace may itself be the newline terminating that line, as in
`"#\nfoo"`, which `re.search(r'^#\s', s, re.MULTILINE)` matches. -/
def hashSpaceAt (l : List Char) : Bool :=
  match l with
  | c0 :: c1 :: _ => c0 = '#' && pyIsSpace c1
  | _ => false

lemma anchorTail_mono (p q : List Char → Bool)
    (hpq : ∀ l, p l = true → q l = true) :
    ∀ l, anchorTail p l = true → anchorTail q l = true := by
  intro l
  induction l with
  | nil => intro h; simp [anchorTail] at h
  | cons c r ih =>
    intro h
    rw [anchorTail, Bool.or_eq_true] at h ⊢
    rcases h with h | h
    · rw [Bool.and_eq_true] at h
      exact Or.inl (by rw [Bool.and_eq_true]; exact ⟨h.1, hpq _ h.2⟩)
    · exact Or.inr (ih h)

lemma anchorAny_mono (p q : List Char → Bool)
    (hpq : ∀ l, p l = true → q l = true) (l : List Char)
    (h : anchorAny p l = true) : anchorAny q l = true := by
  rw [anchorAny, Bool.or_eq_true] at h ⊢
  rcases h with h | h
  · exact Or.inl (hpq _ h)
  · exact Or.inr (anchorTail_mono p q hpq l h)

lemma startsWithCS_elim {l : List Char} {p : Char} {ps : List Char}
    (h : startsWithCS l (p :: ps) = true) :
    ∃ t, l = p :: t ∧ startsWithCS t ps = true := by
  cases l with
  | nil => simp [startsWithCS] at h
  | cons c t =>
    rw [startsWithCS, Bool.and_eq_true, decide_eq_true_eq] at h
    exact ⟨t, by rw [h.1], h.2⟩

lemma isHeaderLine_of_hashSpace (l : List Char)
    (h : hashSpaceAt l = true) : isHeaderLine l = true := by
  cases l with
  | nil => simp [hashSpaceAt] at h
  | cons c0 r0 =>
    cases r0 with
    | nil => simp [hashSpaceAt] at h
    | cons c1 r1 =>
      rw [hashSpaceAt, Bool.and_eq_true, decide_eq_true_eq] at h
      obtain ⟨rfl, hsp⟩ := h
      have hc : c1 ≠ '#' := by
        intro he
        rw [he] at hsp
        simp [pyIsSpace] at hsp
      have h1 : leadingHashes ('#' :: c1 :: r1) = 1 := by
        simp [leadingHashes, if_neg hc]
      simp [isHeaderLine, h1, hsp]

lemma hasBold_of_startsWith (l : List Char)
    (h : startsWithCS l ("**bold**".data) = true) : hasBold l = true := by
  obtain ⟨t1, rfl, h1⟩ := startsWithCS_elim h
  obtain ⟨t2, rfl, h2⟩ := startsWithCS_elim h1
  obtain ⟨t3, rfl, h3⟩ := startsWithCS_elim h2
  obtain ⟨t4, rfl, h4⟩ := startsWithCS_elim h3
  obtain ⟨t5, rfl, h5⟩ := startsWithCS_elim h4
  obtain ⟨t6, rfl, h6⟩ := startsWithCS_elim h5
  obtain ⟨t7, rfl, h7⟩ := startsWithCS_elim h6
  obtain ⟨t8, rfl, _⟩ := startsWithCS_elim h7
  simp [hasBold, boldAt, findCloseBold]

lemma hasBold_of_contains (l : List Char)
    (h : containsSub l ("**bold**".data) = true) : hasBold l = true := by
  induction l with
  | nil => simp [containsSub, startsWithCS] at h
  | cons c rest ih =>
    rw [containsSub, Bool.or_eq_true] at h
    rcases h with h | h
    · exact hasBold_of_startsWith _ h
    · have hstep : hasBold (c :: rest) = (boldAt (c :: rest) || hasBold rest) :=
        rfl
      rw [hstep, ih h, Bool.or_true]

lemma is_markdown_of_claim (s : String)
    (h : (anchorAny hashSpaceAt s.data ||
      containsSub s.data ("**bold**".data)) = true) :
    _is_markdown s = true := by
  rw [Bool.or_eq_true] at h
  rcases h with h | h
  · have : anchorAny isHeaderLine s.data = true :=
      anchorAny_mono hashSpaceAt isHeaderLine isHeaderLine_of_hashSpace _ h
    simp [_is_markdown, this]
  · simp [_is_markdown, hasBold_of_contains _ h]

/-- C5 as amended: a string input matching `^#\s` at a `re.MULTILINE`
line start (the whitespace possibly being that line's terminating
newline) or containing `**bold**` is never classified `text`; it is
classified `markdown` *provided* the earlier sniffing stages do not
claim it — i.e. it is not valid JSON and `yaml.safe_load` does not
produce a dict/list (the original claim overlooked the JSON/YAML stages,
which run first). -/
theorem C5_amended (s : String) (yaml_safe_load : String → Option PyVal)
    (h : (anchorAny hashSpaceAt s.data ||
      containsSub s.data ("**bold**".data)) = true) :
    (_determine_output_type yaml_safe_load (PyVal.str s)).1 ≠
      OutputType.text ∧
    (json_loads s = Option.none →
      (∀ d, yaml_safe_load s ≠ some (PyVal.dict d)) →
      (∀ xs, yaml_safe_load s ≠ some (PyVal.list xs)) →
      (_determine_output_type yaml_safe_load (PyVal.str s)).1 =
        OutputType.markdown) := by
  have hmd := is_markdown_of_claim s h
  constructor
  · simp only [_determine_output_type]
    cases hj : json_loads s with
    | some v => simp
    | none =>
      cases hy : yaml_safe_load s with
      | none => simp [hmd]
      | some v => cases v <;> simp [hmd]
  · intro hj hd hx
    simp only [_determine_output_type, hj]
    cases hy : yaml_safe_load s with
    | none => simp [hmd]
    | some v =>
      cases v with
      | dict d => exact absurd hy (hd d)
      | list xs => exact absurd hy (hx xs)
      | str _ => simp [hmd]
      | int _ => simp [hmd]
      | float _ => simp [hmd]
      | bool _ => simp [hmd]
      | none => simp [hmd]
      | nonfinite _ _ => simp [hmd]

/-- C5, witness: the string `"#\nfoo"` matches `^#\s` at its first line
start — the whitespace being the newline itself — and is classified
markdown. -/
theorem C5_amended_witness :
    (_determine_output_type (fun _ => Option.none)
        (PyVal.str "#\nfoo")).1 = OutputType.markdown :=
  (C5_amended "#\nfoo" (fun _ => Option.none) (by decide)).2
    rfl (fun d h => Option.noConfusion h)
    (fun xs h => Option.noConfusion h)

/-- C5, counterexample: the string `["**bold**"]` contains `**bold**`
yet is classified `json` (the JSON sniffing stage runs before the
markdown check), not `markdown` as the claim requires. -/
theorem C5_counterexample :
    containsSub ("[\"**bold**\"]").data ("**bold**".data) = true ∧
    (_determine_output_type (fun _ => Option.none)
        (PyVal.str "[\"**bold**\"]")).1 = OutputType.json ∧
    (_determine_output_type (fun _ => Option.none)
        (PyVal.str "[\"**bold**\"]")).1 ≠ OutputType.markdown :=
  ⟨by decide, by decide, by decide⟩

/-- The raw text of the C4 scenario. -/
def c4raw : String :=
  "# Title\n\nSome content with **bold** text and a [link](http://example.com)."

/-- The value `yaml.safe_load` produces on the scenario input: the first
line is a YAML comment and the remainder parses as a plain scalar string
— in particular, not a dict or a list. -/
def c4yaml : String → Option PyVal := fun _ =>
  some (PyVal.str
    "Some content with **bold** text and a [link](http://example.com).")

/-- Processing the C4 scenario text, as a function of the `yaml.safe_load`
oracle. -/
def c4processed (yaml_safe_load : String → Option PyVal) : StructuredOutput :=
  process_agent_output yaml_safe_load Option.none (PyVal.str c4raw) "agent_1"
    "Writer" Option.none Option.none Option.none Option.none Option.none

/-- C4, counterexample: on the scenario input the computed
`metadata.source_count` is `2`, not `1` as claimed — the markdown-link
pattern matches `[link](http://example.com)` *and* the bare-URL pattern
separately matches `http://example.com).`, and the two distinct match
strings are both counted. -/
theorem C4_counterexample :
    (c4processed c4yaml).metadata.source_count = some 2 ∧
    _count_sources (PyVal.str c4raw) = some 2 := ⟨rfl, rfl⟩

lemma c4_determine (yaml_safe_load : String → Option PyVal)
    (hd : ∀ d, yaml_safe_load c4raw ≠ some (PyVal.dict d))
    (hx : ∀ xs, yaml_safe_load c4raw ≠ some (PyVal.list xs)) :
    _determine_output_type yaml_safe_load (PyVal.str c4raw) =
      (OutputType.markdown, PyVal.str c4raw) := by
  have hj : json_loads c4raw = Option.none := rfl
  have hmd : _is_markdown c4raw = true := by decide
  simp only [_determine_output_type, hj]
  cases hy : yaml_safe_load c4raw with
  | none => simp [hmd]
  | some v =>
    cases v with
    | dict d => exact absurd hy (hd d)
    | list xs => exact absurd hy (hx xs)
    | str _ => simp [hmd]
    | int _ => simp [hmd]
    | float _ => simp [hmd]
    | bool _ => simp [hmd]
    | none => simp [hmd]
    | nonfinite _ _ => simp [hmd]

/-- C4 as amended: processing the scenario text with agent role "Writer"
(for any `yaml.safe_load` outcome that is not a dict/list, as on the real
input) yields `output_type = markdown` and
`sections = \x7b"title": "Some content with **bold** text and a
[link](http://example.com)."\x7d` as claimed, but
`metadata.source_count = 2`, not `1`. -/
theorem C4_amended (yaml_safe_load : String → Option PyVal)
    (hd : ∀ d, yaml_safe_load c4raw ≠ some (PyVal.dict d))
    (hx : ∀ xs, yaml_safe_load c4raw ≠ some (PyVal.list xs)) :
    (c4processed yaml_safe_load).output_type = OutputType.markdown ∧
    (c4processed yaml_safe_load).sections =
      some [("title", PyVal.str
        "Some content with **bold** text and a [link](http://example.com).")] ∧
    (c4processed yaml_safe_load).metadata.source_count = some 2 := by
  have hdet := c4_determine yaml_safe_load hd hx
  have h1 : (c4processed yaml_safe_load).output_type =
      (_determine_output_type yaml_safe_load (PyVal.str c4raw)).1 := rfl
  have h2 : (c4processed yaml_safe_load).sections =
      _organize_content_sections
        (_determine_output_type yaml_safe_load (PyVal.str c4raw)).2
        (_determine_output_type yaml_safe_load (PyVal.str c4raw)).1 := rfl
  have h3 : (c4processed yaml_safe_load).metadata.source_count =
      _count_sources
        (_determine_output_type yaml_safe_load (PyVal.str c4raw)).2 := rfl
  refine ⟨?_, ?_, ?_⟩
  · rw [h1, hdet]
  · rw [h2, hdet]
    rfl
  · rw [h3, hdet]
    rfl

/-- C4, witness: the amended statement at the faithful `yaml.safe_load`
outcome. -/
theorem C4_amended_witness :
    (c4processed c4yaml).output_type = OutputType.markdown ∧
    (c4processed c4yaml).sections =
      some [("title", PyVal.str
        "Some content with **bold** text and a [link](http://example.com).")] ∧
    (c4processed c4yaml).metadata.source_count = some 2 :=
  C4_amended c4yaml (fun _ h => PyVal.noConfusion (Option.some.inj h))
    (fun _ h => PyVal.noConfusion (Option.some.inj h))

lemma sum_ite_filter (w : String → ℚ) (l : List (String × Bool)) :
    (l.map fun kv => if kv.2 then w kv.1 else 0).sum =
      ((l.filter (·.2)).map fun kv => w kv.1).sum := by
  induction l with
  | nil => rfl
  | cons kv l ih => cases hb : kv.2 <;> simp [List.filter_cons, hb, ih]

lemma lookupWeight_nonneg (rules : List ValidationRule)
    (hw : ∀ r ∈ rules, 0 ≤ r.weight) (n : String) :
    0 ≤ lookupWeight rules n := by
  induction rules with
  | nil => norm_num [lookupWeight]
  | cons r rest ih =>
    rw [lookupWeight]
    split
    · exact hw r (List.mem_cons_self r rest)
    · exact ih fun x hx => hw x (List.mem_cons_of_mem r hx)

lemma sum_map_weight_nonneg (w : String → ℚ) (l : List (String × Bool))
    (hw : ∀ n, 0 ≤ w n) : 0 ≤ (l.map fun kv => w kv.1).sum := by
  induction l with
  | nil => simp
  | cons kv l ih =>
    simp only [List.map_cons, List.sum_cons]
    exact add_nonneg (hw kv.1) ih

lemma filter_sum_le_sum (w : String → ℚ) (l : List (String × Bool))
    (hw : ∀ n, 0 ≤ w n) :
    ((l.filter (·.2)).map fun kv => w kv.1).sum ≤
      (l.map fun kv => w kv.1).sum := by
  induction l with
  | nil => simp
  | cons kv l ih =>
    cases hb : kv.2 <;>
      simp only [List.filter_cons, hb, List.map_cons, List.sum_cons,
        cond_true, cond_false]
    · calc ((l.filter (·.2)).map fun kv => w kv.1).sum ≤
            (l.map fun kv => w kv.1).sum := ih
        _ ≤ w kv.1 + (l.map fun kv => w kv.1).sum := by
            have := hw kv.1; linarith
    · exact add_le_add_left ih _

lemma claimScore_nonneg (rules : List ValidationRule)
    (reqs : List (String × Bool)) (hw : ∀ n, 0 ≤ lookupWeight rules n) :
    0 ≤ claimScore rules reqs := by
  rw [claimScore]
  split
  · norm_num
  · exact div_nonneg (sum_map_weight_nonneg _ _ hw) (sum_map_weight_nonneg _ _ hw)

lemma claimScore_le_one (rules : List ValidationRule)
    (reqs : List (String × Bool)) (hw : ∀ n, 0 ≤ lookupWeight rules n) :
    claimScore rules reqs ≤ 1 := by
  rw [claimScore]
  split
  · norm_num
  · rcases lt_or_eq_of_le (sum_map_weight_nonneg (lookupWeight rules) reqs hw)
      with hpos | hzero
    · rw [div_le_one hpos]
      exact filter_sum_le_sum _ _ hw
    · rw [← hzero, div_zero]
      norm_num

/-- The custom rule of the C6 counterexample: its negative weight drives
the total weight of all requirements to `-7`. -/
def C6badRule : ValidationRule :=
  { name := "bad_weight"
    description := "custom rule with a negative weight"
    validator_func := fun _ => .ok true
    error_message := "never fails"
    weight := -20 }

/-- The `requirements_met` state reached on `sampleTextOutput` with the
bad custom rule: every requirement is satisfied. -/
def C6reqs : List (String × Bool) :=
  [("content_exists", true), ("minimum_content_length", true),
    ("status_consistency", true), ("metadata_completeness", true),
    ("content_type_consistency", true), ("word_count_accuracy", true),
    ("no_suspicious_content", true), ("proper_encoding", true),
    ("json_validity", true), ("markdown_structure", true),
    ("bad_weight", true)]

lemma C6_state :
    validatorState [] sampleTextOutput Option.none (some [C6badRule]) false =
      ([], [], C6reqs) := rfl

/-- C6, counterexample: with a custom rule of weight `-20` every
requirement is satisfied, the total weight is `-7 ≤ 0`, and the code
returns validation score `0.0` (its `else` branch), while the claimed
weighted-fraction formula evaluates to `1` — so the returned score does
not equal the claimed quotient. -/
theorem C6_counterexample :
    (OutputValidator.validate_output [] sampleTextOutput Option.none
        (some [C6badRule]) false).map (·.validation_score) = some 0 ∧
    claimScore (built_in_rules ++ rulesToCheck [] (some [C6badRule]))
      (validatorState [] sampleTextOutput Option.none (some [C6badRule])
        false).2.2 = 1 := by
  have hsc : validatorScore [] (some [C6badRule]) C6reqs = 0 := by
    simp [validatorScore, C6reqs, rulesToCheck, lookupWeight, built_in_rules,
      C6badRule]
    norm_num
  constructor
  · simp only [OutputValidator.validate_output, C6_state]
    rw [hsc]
    simp [mkOutputValidation]
  · rw [C6_state]
    simp [claimScore, C6reqs, rulesToCheck, lookupWeight, built_in_rules,
      C6badRule]
    norm_num

/-- C6 as amended: for nonnegative custom-rule weights (all built-in
weights are nonnegative) the construction succeeds and the returned
`validation_score` equals the claimed weighted fraction — the sum of the
weights of the satisfied requirements over the sum of the weights of all
requirements, a requirement's weight being that of the first rule with
its name among built-in then checked rules (default `1.0`), with score
`1.0` for an empty requirement set — and lies in `[0,1]`.  (When
negative custom weights make the total weight non-positive the code
instead returns `0.0`, per the counterexample.) -/
theorem C6_weighted_score (selfCustom : List ValidationRule)
    (output : StructuredOutput) (schema : Option OutputSchema)
    (custom_rules : Option (List ValidationRule)) (strict_mode : Bool)
    (hw : ∀ r ∈ rulesToCheck selfCustom custom_rules, 0 ≤ r.weight) :
    ∃ v, OutputValidator.validate_output selfCustom output schema
        custom_rules strict_mode = some v ∧
      v.validation_score =
        claimScore (built_in_rules ++ rulesToCheck selfCustom custom_rules)
          (validatorState selfCustom output schema custom_rules
            strict_mode).2.2 ∧
      0 ≤ v.validation_score ∧ v.validation_score ≤ 1 := by
  have hwAll : ∀ r ∈ built_in_rules ++ rulesToCheck selfCustom custom_rules,
      0 ≤ r.weight := by
    intro r hr
    rcases List.mem_append.mp hr with h | h
    · fin_cases h <;> norm_num [built_in_rules]
    · exact hw r h
  have hlook := lookupWeight_nonneg _ hwAll
  rcases hst : validatorState selfCustom output schema custom_rules
    strict_mode with ⟨errs, warns, reqs⟩
  have hts : validatorScore selfCustom custom_rules reqs =
      claimScore (built_in_rules ++ rulesToCheck selfCustom custom_rules)
        reqs := by
    rcases reqs with _ | ⟨kv, rest⟩
    · simp [validatorScore, claimScore]
    · have hlen : (kv :: rest).length > 0 := by simp
      have hne : ¬ ((kv :: rest).isEmpty = true) := by simp
      rw [validatorScore, claimScore, if_pos hlen, if_neg hne]
      simp only [sum_ite_filter]
      rcases lt_or_eq_of_le (sum_map_weight_nonneg _ (kv :: rest) hlook)
        with hpos | hzero
      · rw [if_pos hpos]
      · rw [if_neg (by rw [← hzero]; exact lt_irrefl 0), ← hzero, div_zero]
  have h0 := claimScore_nonneg _ reqs hlook
  have h1 := claimScore_le_one _ reqs hlook
  refine ⟨⟨errs.isEmpty,
    claimScore (built_in_rules ++ rulesToCheck selfCustom custom_rules) reqs,
    errs, warns, reqs⟩, ?_, rfl, h0, h1⟩
  simp only [OutputValidator.validate_output, hst]
  rw [hts, mkOutputValidation, if_pos ⟨h0, h1⟩]

/-- C6, witness: built-in rules only, on a concrete output. -/
theorem C6_weighted_score_witness :
    ∃ v, OutputValidator.validate_output [] sampleTextOutput Option.none
        Option.none false = some v ∧
      v.validation_score =
        claimScore (built_in_rules ++ rulesToCheck [] Option.none)
          (validatorState [] sampleTextOutput Option.none Option.none
            false).2.2 ∧
      0 ≤ v.validation_score ∧ v.validation_score ≤ 1 :=
  C6_weighted_score [] sampleTextOutput Option.none Option.none false
    (by intro r hr; simp [rulesToCheck] at hr)

/-- Present-and-nonzero (Python-truthy) word count, as the analytics
filters select it. -/
def truthyWcProj (o : StructuredOutput) : Option ℚ :=
  if truthyOptInt o.metadata.word_count then
    some ((o.metadata.word_count.getD 0 : ℚ))
  else Option.none

/-- Present-and-nonzero execution time. -/
def truthyTimeProj (o : StructuredOutput) : Option ℚ :=
  if truthyOptQ o.metadata.execution_time then o.metadata.execution_time
  else Option.none

/-- Present-and-nonzero confidence score. -/
def truthyConfProj (o : StructuredOutput) : Option ℚ :=
  if truthyOptQ o.metadata.confidence_score then o.metadata.confidence_score
  else Option.none

/-- An output whose word count is present but zero. -/
def C7outZero : StructuredOutput :=
  { content := PyVal.str ""
    metadata :=
      { agent_id := "agent_0", agent_role := "Writer", word_count := some 0 } }

/-- An output with a word count of `100`. -/
def C7outHundred : StructuredOutput :=
  { content := PyVal.str "one hundred words"
    metadata :=
      { agent_id := "agent_1", agent_role := "Writer",
        word_count := some 100 } }

/-- C7, counterexample: with word counts `[0, 100]` — both *present* —
the analytics' average word count is `100` (the present-but-zero value
is excluded by Python truthiness), while the mean over the outputs in
which the value is present is `50`.  The code's mean is therefore not
the mean over the present values. -/
theorem C7_counterexample :
    ((_calculate_analytics [C7outZero, C7outHundred] 0).map
      (·.content_metrics.avg_words_per_output)) = some 100 ∧
    meanOverPresent (fun o => o.metadata.word_count.map fun n => (n : ℚ))
      [C7outZero, C7outHundred] = some 50 := by
  constructor
  · simp [_calculate_analytics, truthyWordCounts, C7outZero, C7outHundred,
      truthyOptInt, pyMean]
  · simp [meanOverPresent, C7outZero, C7outHundred, pyMean]
    norm_num

/-- C7 as amended: every analytics mean is computed over the outputs in
which the corresponding value is *Python-truthy* — present **and**
nonzero — rather than merely present; a missing value is never treated
as zero (appending an output with a missing word count leaves the word
metrics' value lists unchanged), and the average validation score is
the mean over the outputs carrying a validation object. -/
theorem C7_truthy_means (outputs : List StructuredOutput) (T : ℚ)
    (hne : outputs ≠ []) :
    ∃ a, _calculate_analytics outputs T = some a ∧
      a.content_metrics.avg_words_per_output =
        (meanOverPresent truthyWcProj outputs).getD 0 ∧
      a.performance_metrics.avg_task_time =
        (meanOverPresent truthyTimeProj outputs).getD 0 ∧
      a.performance_metrics.avg_confidence =
        meanOverPresent truthyConfProj outputs ∧
      a.quality_metrics.avg_validation_score =
        meanOverPresent (fun o => o.validation.map (·.validation_score))
          outputs ∧
      (∀ outs, (agentPerformanceOf outs).avg_word_count =
          meanOverPresent truthyWcProj outs ∧
        (agentPerformanceOf outs).avg_execution_time =
          meanOverPresent truthyTimeProj outs) ∧
      (∀ o, o.metadata.word_count = Option.none →
        truthyWordCounts (outputs ++ [o]) = truthyWordCounts outputs) := by
  have hwc : ∀ l, truthyWordCounts l = l.filterMap truthyWcProj := fun _ => rfl
  have htt : ∀ l, truthyExecutionTimes l = l.filterMap truthyTimeProj :=
    fun _ => rfl
  have hcc : ∀ l, truthyConfidences l = l.filterMap truthyConfProj :=
    fun _ => rfl
  have hemp : outputs.isEmpty = false := by
    cases outputs with
    | nil => exact absurd rfl hne
    | cons _ _ => rfl
  refine ⟨_, by rw [_calculate_analytics, hemp]; rfl, ?_, ?_, ?_, ?_, ?_, ?_⟩
  · show (if (truthyWordCounts outputs).isEmpty then 0
      else pyMean (truthyWordCounts outputs)) = _
    rw [meanOverPresent, hwc]
    cases h : (outputs.filterMap truthyWcProj).isEmpty <;> simp [h]
  · show (if (truthyExecutionTimes outputs).isEmpty then 0
      else pyMean (truthyExecutionTimes outputs)) = _
    rw [meanOverPresent, htt]
    cases h : (outputs.filterMap truthyTimeProj).isEmpty <;> simp [h]
  · show (if (truthyConfidences outputs).isEmpty then Option.none
      else some (pyMean (truthyConfidences outputs))) = _
    rw [meanOverPresent, hcc]
  · show (if (presentValidationScores outputs).isEmpty then Option.none
      else some (pyMean (presentValidationScores outputs))) = _
    rw [meanOverPresent]
    rfl
  · intro outs
    constructor
    · show (if (truthyWordCounts outs).isEmpty then Option.none
        else some (pyMean (truthyWordCounts outs))) = _
      rw [meanOverPresent, hwc]
    · show (if (truthyExecutionTimes outs).isEmpty then Option.none
        else some (pyMean (truthyExecutionTimes outs))) = _
      rw [meanOverPresent, htt]
  · intro o ho
    rw [hwc, hwc, List.filterMap_append]
    have : [o].filterMap truthyWcProj = [] := by
      simp [truthyWcProj, ho, truthyOptInt]
    rw [this, List.append_nil]

/-- C7, witness: the amended statement on the concrete `[0, 100]` pair. -/
theorem C7_truthy_means_witness :
    ((_calculate_analytics [C7outZero, C7outHundred] 0).map
      (·.content_metrics.avg_words_per_output)) =
      some ((meanOverPresent truthyWcProj [C7outZero, C7outHundred]).getD 0) := by
  obtain ⟨a, ha, h1, -⟩ :=
    C7_truthy_means [C7outZero, C7outHundred] 0 (List.cons_ne_nil _ _)
  rw [ha]
  simp [h1]

/-- The schema validation score always lies in `[0,1]`, so the pydantic
bound on `OutputValidation` never raises on the schema path. -/
lemma schema_score_bounds (schema : OutputSchema) (output : StructuredOutput) :
    0 ≤ (schema.validate_output output).validation_score ∧
      (schema.validate_output output).validation_score ≤ 1 := by
  show 0 ≤ (if _ > 0 then _ else 1) ∧ (if _ > 0 then _ else 1) ≤ 1
  split
  · rename_i hpos
    constructor
    · positivity
    · rw [div_le_one (by exact_mod_cast hpos)]
      exact_mod_cast List.length_filter_le _ _
  · norm_num

lemma dictLookup_dictUpdate {v : Type} (d : List (String × v)) (k' : String)
    (x : v) (k : String) :
    dictLookup (dictUpdate d k' x) k =
      if k' = k then some x else dictLookup d k := by
  induction d with
  | nil => rfl
  | cons kv rest ih =>
    obtain ⟨k0, x0⟩ := kv
    rw [dictUpdate]
    by_cases h0 : k0 = k'
    · rw [if_pos h0]
      by_cases hk : k' = k
      · rw [dictLookup, if_pos (h0.trans hk), if_pos hk]
      · rw [dictLookup, if_neg (fun hh => hk (h0 ▸ hh)), if_neg hk,
          dictLookup, if_neg (fun hh => hk (h0 ▸ hh))]
    · rw [if_neg h0, dictLookup, dictLookup]
      by_cases hk : k0 = k
      · rw [if_pos hk, if_pos hk]
        rw [if_neg fun hh => h0 (hk.trans hh.symm)]
      · rw [if_neg hk, if_neg hk, ih]

lemma dictLookup_append_none {v : Type} {a : List (String × v)}
    (b : List (String × v)) {k : String} (h : dictLookup a k = Option.none) :
    dictLookup (a ++ b) k = dictLookup b k := by
  induction a with
  | nil => rfl
  | cons kv rest ih =>
    obtain ⟨k0, x0⟩ := kv
    rw [dictLookup] at h
    rw [List.cons_append, dictLookup]
    by_cases hk : k0 = k
    · rw [if_pos hk] at h
      exact absurd h (by simp)
    · rw [if_neg hk] at h ⊢
      exact ih h

lemma string_append_data (a b : String) : (a ++ b).data = a.data ++ b.data := by
  rcases a with ⟨la⟩
  rcases b with ⟨lb⟩
  rfl

lemma startsWithCS_append_self (a b : List Char) :
    startsWithCS (a ++ b) a = true := by
  induction a with
  | nil => cases b <;> rfl
  | cons c r ih => simp [startsWithCS, ih]

/-- A key that does not start with `section_` differs from every
`section_<name>` key. -/
lemma sectionKey_ne (sec k : String)
    (hk : startsWithCS k.data ("section_".data) = false) :
    "section_" ++ sec ≠ k := by
  intro he
  have hd : k.data = "section_".data ++ sec.data := by
    rw [← he, string_append_data]
  rw [hd, startsWithCS_append_self] at hk
  exact absurd hk (by simp)

lemma sectionLoop_lookup (secs : List (String × PyVal)) (req : List String)
    (errs : List String) (acc : List (String × Bool)) (k : String)
    (h : ∀ sec ∈ req, "section_" ++ sec ≠ k) :
    dictLookup (sectionLoop secs req (errs, acc)).2 k = dictLookup acc k := by
  induction req generalizing errs acc with
  | nil => rfl
  | cons sec rest ih =>
    have hs := h sec (List.mem_cons_self sec rest)
    have hrest : ∀ x ∈ rest, "section_" ++ x ≠ k :=
      fun x hx => h x (List.mem_cons_of_mem sec hx)
    rw [sectionLoop]
    split
    · rw [ih _ _ hrest, dictLookup_dictUpdate, if_neg hs]
    · rw [ih _ _ hrest, dictLookup_dictUpdate, if_neg hs]

lemma schemaSectionsCheck_lookup (schema : OutputSchema)
    (output : StructuredOutput) (k : String)
    (hk : startsWithCS k.data ("section_".data) = false) :
    dictLookup (schemaSectionsCheck schema output).2 k = Option.none := by
  rw [schemaSectionsCheck]
  split
  · exact sectionLoop_lookup _ _ _ _ _
      fun sec _ => sectionKey_ne sec k hk
  · rfl

lemma pair_check_lookup_ne (p : List String × List (String × Bool))
    (key k : String) (hk : key ≠ k)
    (hp : p.2 = [] ∨ p.2 = [(key, false)] ∨ p.2 = [(key, true)]) :
    dictLookup p.2 k = Option.none := by
  rcases hp with hp | hp | hp <;> rw [hp] <;> simp [dictLookup, hk]

lemma schemaMinWcCheck_shape (schema : OutputSchema)
    (output : StructuredOutput) :
    (schemaMinWcCheck schema output).2 = [] ∨
      (schemaMinWcCheck schema output).2 = [("min_word_count", false)] ∨
      (schemaMinWcCheck schema output).2 = [("min_word_count", true)] := by
  rw [schemaMinWcCheck]
  split
  · split
    · right; left; rfl
    · right; right; rfl
  · left; rfl

lemma schemaMaxWcCheck_shape (schema : OutputSchema)
    (output : StructuredOutput) :
    (schemaMaxWcCheck schema output).2 = [] ∨
      (schemaMaxWcCheck schema output).2 = [("max_word_count", false)] ∨
      (schemaMaxWcCheck schema output).2 = [("max_word_count", true)] := by
  rw [schemaMaxWcCheck]
  split
  · split
    · right; left; rfl
    · right; right; rfl
  · left; rfl

lemma schemaConfCheck_shape (schema : OutputSchema)
    (output : StructuredOutput) :
    (schemaConfCheck schema output).2 = [] ∨
      (schemaConfCheck schema output).2 = [("min_confidence", false)] ∨
      (schemaConfCheck schema output).2 = [("min_confidence", true)] := by
  rw [schemaConfCheck]
  split
  · split
    · right; left; rfl
    · right; right; rfl
  · left; rfl

lemma schemaSourcesCheck_shape (schema : OutputSchema)
    (output : StructuredOutput) :
    (schemaSourcesCheck schema output).2 = [] ∨
      (schemaSourcesCheck schema output).2 = [("required_sources", false)] ∨
      (schemaSourcesCheck schema output).2 = [("required_sources", true)] := by
  rw [schemaSourcesCheck]
  split
  · split
    · right; left; rfl
    · right; right; rfl
  · left; rfl

/-- The `requirements_met` of a schema validation, as the concatenation
of the five checks (definitional). -/
lemma schema_reqs_eq (schema : OutputSchema) (output : StructuredOutput) :
    (schema.validate_output output).requirements_met =
      (schemaMinWcCheck schema output).2 ++ (schemaMaxWcCheck schema output).2
        ++ (schemaConfCheck schema output).2
        ++ (schemaSourcesCheck schema output).2
        ++ (schemaSectionsCheck schema output).2 := rfl

lemma lookup_concat5_none (a b c d e : List (String × Bool)) (k : String)
    (ha : dictLookup a k = Option.none) (hb : dictLookup b k = Option.none)
    (hc : dictLookup c k = Option.none) (hd : dictLookup d k = Option.none)
    (he : dictLookup e k = Option.none) :
    dictLookup (a ++ b ++ c ++ d ++ e) k = Option.none := by
  have h1 : dictLookup (a ++ b) k = Option.none := by
    rw [dictLookup_append_none _ ha]; exact hb
  have h2 : dictLookup (a ++ b ++ c) k = Option.none := by
    rw [dictLookup_append_none _ h1]; exact hc
  have h3 : dictLookup (a ++ b ++ c ++ d) k = Option.none := by
    rw [dictLookup_append_none _ h2]; exact hd
  rw [dictLookup_append_none _ h3]; exact he

/-- C9: the schema checks fire only on Python-truthy values.  When the
output's word count is absent or zero, neither `min_word_count` nor
`max_word_count` appears among the requirements (so the output is never
failed by them); likewise for an absent-or-zero confidence score or
source count, and for the `section_<name>` requirements when the output
has no (or an empty) sections mapping.  In particular an output with
`word_count = 0` or without sections is never failed by `min_word_count`
or `required_sections` of any schema. -/
theorem C9_truthiness_guards (schema : OutputSchema)
    (output : StructuredOutput) :
    (truthyOptInt output.metadata.word_count = false →
      dictLookup (schema.validate_output output).requirements_met
        "min_word_count" = Option.none ∧
      dictLookup (schema.validate_output output).requirements_met
        "max_word_count" = Option.none) ∧
    (truthyOptQ output.metadata.confidence_score = false →
      dictLookup (schema.validate_output output).requirements_met
        "min_confidence" = Option.none) ∧
    (truthyOptInt output.metadata.source_count = false →
      dictLookup (schema.validate_output output).requirements_met
        "required_sources" = Option.none) ∧
    (truthyOptDict output.sections = false →
      ∀ sec, dictLookup (schema.validate_output output).requirements_met
        ("section_" ++ sec) = Option.none) ∧
    (output.metadata.word_count = some 0 →
      dictLookup (schema.validate_output output).requirements_met
        "min_word_count" = Option.none) ∧
    (output.sections = some [] →
      ∀ sec, dictLookup (schema.validate_output output).requirements_met
        ("section_" ++ sec) = Option.none) := by
  refine ⟨?_, ?_, ?_, ?_, ?_, ?_⟩
  · intro hwc
    have ha : (schemaMinWcCheck schema output).2 = [] := by
      rw [schemaMinWcCheck]
      rw [hwc, Bool.and_false, if_neg (by simp)]
    have hb : (schemaMaxWcCheck schema output).2 = [] := by
      rw [schemaMaxWcCheck]
      rw [hwc, Bool.and_false, if_neg (by simp)]
    constructor <;> rw [schema_reqs_eq] <;>
      refine lookup_concat5_none _ _ _ _ _ _ (by rw [ha]; rfl) (by rw [hb]; rfl)
        (pair_check_lookup_ne _ _ _ (by decide) (schemaConfCheck_shape _ _))
        (pair_check_lookup_ne _ _ _ (by decide) (schemaSourcesCheck_shape _ _))
        (schemaSectionsCheck_lookup _ _ _ (by decide))
  · intro hcs
    have hc : (schemaConfCheck schema output).2 = [] := by
      rw [schemaConfCheck]
      rw [hcs, if_neg (by simp)]
    rw [schema_reqs_eq]
    exact lookup_concat5_none _ _ _ _ _ _
      (pair_check_lookup_ne _ _ _ (by decide) (schemaMinWcCheck_shape _ _))
      (pair_check_lookup_ne _ _ _ (by decide) (schemaMaxWcCheck_shape _ _))
      (by rw [hc]; rfl)
      (pair_check_lookup_ne _ _ _ (by decide) (schemaSourcesCheck_shape _ _))
      (schemaSectionsCheck_lookup _ _ _ (by decide))
  · intro hsc
    have hd : (schemaSourcesCheck schema output).2 = [] := by
      rw [schemaSourcesCheck]
      rw [hsc, Bool.and_false, if_neg (by simp)]
    rw [schema_reqs_eq]
    exact lookup_concat5_none _ _ _ _ _ _
      (pair_check_lookup_ne _ _ _ (by decide) (schemaMinWcCheck_shape _ _))
      (pair_check_lookup_ne _ _ _ (by decide) (schemaMaxWcCheck_shape _ _))
      (pair_check_lookup_ne _ _ _ (by decide) (schemaConfCheck_shape _ _))
      (by rw [hd]; rfl)
      (schemaSectionsCheck_lookup _ _ _ (by decide))
  · intro hsec sec
    have he : (schemaSectionsCheck schema output).2 = [] := by
      rw [schemaSectionsCheck]
      rw [hsec, Bool.and_false, if_neg (by simp)]
    rw [schema_reqs_eq]
    refine lookup_concat5_none _ _ _ _ _ _
      (pair_check_lookup_ne _ _ _ ?_ (schemaMinWcCheck_shape _ _))
      (pair_check_lookup_ne _ _ _ ?_ (schemaMaxWcCheck_shape _ _))
      (pair_check_lookup_ne _ _ _ ?_ (schemaConfCheck_shape _ _))
      (pair_check_lookup_ne _ _ _ ?_ (schemaSourcesCheck_shape _ _))
      (by rw [he]; rfl) <;>
      exact fun hh => sectionKey_ne sec _ (by decide) hh.symm
  · intro h0
    have hwc : truthyOptInt output.metadata.word_count = false := by
      rw [h0]; rfl
    have ha : (schemaMinWcCheck schema output).2 = [] := by
      rw [schemaMinWcCheck]
      rw [hwc, Bool.and_false, if_neg (by simp)]
    rw [schema_reqs_eq]
    exact lookup_concat5_none _ _ _ _ _ _ (by rw [ha]; rfl)
      (pair_check_lookup_ne _ _ _ (by decide) (schemaMaxWcCheck_shape _ _))
      (pair_check_lookup_ne _ _ _ (by decide) (schemaConfCheck_shape _ _))
      (pair_check_lookup_ne _ _ _ (by decide) (schemaSourcesCheck_shape _ _))
      (schemaSectionsCheck_lookup _ _ _ (by decide))
  · intro hsecs sec
    have hsec : truthyOptDict output.sections = false := by
      rw [hsecs]; rfl
    have he : (schemaSectionsCheck schema output).2 = [] := by
      rw [schemaSectionsCheck]
      rw [hsec, Bool.and_false, if_neg (by simp)]
    rw [schema_reqs_eq]
    refine lookup_concat5_none _ _ _ _ _ _
      (pair_check_lookup_ne _ _ _ ?_ (schemaMinWcCheck_shape _ _))
      (pair_check_lookup_ne _ _ _ ?_ (schemaMaxWcCheck_shape _ _))
      (pair_check_lookup_ne _ _ _ ?_ (schemaConfCheck_shape _ _))
      (pair_check_lookup_ne _ _ _ ?_ (schemaSourcesCheck_shape _ _))
      (by rw [he]; rfl) <;>
      exact fun hh => sectionKey_ne sec _ (by decide) hh.symm

/-- A schema exercising every check, for the C9 witness. -/
def C9schema : OutputSchema :=
  { name := "research_output"
    description := "Schema for research task outputs"
    required_sections := ["executive_summary", "key_findings", "sources"]
    min_word_count := some 500
    max_word_count := some 5000
    required_sources := some 3 }

/-- An output with a present-but-zero word count and no sections. -/
def C9output : StructuredOutput :=
  { content := PyVal.str "short text"
    metadata :=
      { agent_id := "agent_0", agent_role := "Researcher",
        word_count := some 0 } }

/-- C9, witness: against a schema demanding 500 words and three
sections, the zero-word-count, sectionless output is failed by
neither the word-count nor the section requirements. -/
theorem C9_truthiness_guards_witness :
    dictLookup (C9schema.validate_output C9output).requirements_met
      "min_word_count" = Option.none ∧
    dictLookup (C9schema.validate_output C9output).requirements_met
      ("section_" ++ "executive_summary") = Option.none :=
  ⟨(C9_truthiness_guards C9schema C9output).2.2.2.2.1 rfl,
    (C9_truthiness_guards C9schema C9output).2.2.2.1 rfl "executive_summary"⟩

/-- C10: `OutputValidator.validate_output` is read-only on its argument.
The translation of the method's effect on `output`
(`validate_output_post`) is the identity — in particular the output's
own `validation` field is neither updated nor attached.  Moreover, for
built-in-rule validation (no custom rules, which may run arbitrary user
code) the fresh `OutputValidation` returned is computed without reading
the argument's `validation` field: replacing that field changes
nothing. -/
theorem C10_validator_read_only (selfCustom : List ValidationRule)
    (output : StructuredOutput) (schema : Option OutputSchema)
    (custom_rules : Option (List ValidationRule)) (strict_mode : Bool)
    (v0 : Option OutputValidation) :
    OutputValidator.validate_output_post selfCustom output schema
        custom_rules strict_mode = output ∧
    (OutputValidator.validate_output_post selfCustom output schema
        custom_rules strict_mode).validation = output.validation ∧
    OutputValidator.validate_output [] { output with validation := v0 }
        schema Option.none strict_mode =
      OutputValidator.validate_output [] output schema Option.none
        strict_mode := by
  refine ⟨rfl, rfl, ?_⟩
  rfl

/-- A stale validation verdict, attached to the argument in the C10
witness to show the validator ignores it. -/
def C10staleValidation : OutputValidation :=
  { is_valid := false, validation_score := 0 }

/-- C10, witness: a concrete validation run under a replaced
`validation` field agrees with the original. -/
theorem C10_validator_read_only_witness :
    OutputValidator.validate_output []
        { sampleTextOutput with validation := some C10staleValidation }
        Option.none Option.none false =
      OutputValidator.validate_output [] sampleTextOutput Option.none
        Option.none false :=
  (C10_validator_read_only [] sampleTextOutput Option.none Option.none false
    (some C10staleValidation)).2.2

end CrewAI
